import Mathlib

/-!
Formal model of the core services of a log-analysis backend: the multi-format
log-line parser (`parse_line`, `parse_file`, `_parse_timestamp` of
`services/parser.py`) and the statistical anomaly detector
(`detect_anomalies` with its six passes, `services/anomalies.py`).

Modelling conventions:
* Python dictionaries produced by the parser are modelled by the `LogRecord`
  structure; a key that may be missing (or present with value `None`) is an
  `Option` field.
* The regular-expression dispatch is modelled by hand-rolled deterministic
  matching functions that realise the leftmost/greedy semantics of the
  concrete patterns used by the source (each is documented at its
  definition, including where backtracking can and cannot occur).
* Character predicates (whitespace, digits, upper-casing) follow Python's
  behaviour on ASCII text; Python additionally admits some Unicode code
  points in these classes, which nothing in the claims exercises.
* Real-valued statistics (`statistics.mean`/`stdev`, float division, the
  float literals `0.1`, `0.3`, `0.5`) are modelled with exact rational
  arithmetic; comparisons against `k * stdev` are encoded sqrt-free by
  comparing squares, which is equivalent whenever the source's guard
  `stdev > 0` holds, since then both sides are non-negative.
-/

namespace LogAnalyzer

/-- Whitespace test matching Python's `str.strip` / `\s` on ASCII text. -/
def pyIsSpace (c : Char) : Bool :=
  c = ' ' || c = '\t' || c = '\n' || c = '\r' || c = '\x0b' || c = '\x0c'

/-- Word-character test for the regex class `\w` on ASCII text. -/
def pyIsWord (c : Char) : Bool :=
  c.isAlphanum || c = '_'

/-- Python `str.strip()`: remove leading and trailing whitespace. -/
def pyStrip (s : String) : String :=
  ⟨((s.data.dropWhile pyIsSpace).reverse.dropWhile pyIsSpace).reverse⟩

/-- Python `str.upper()` on ASCII text. -/
def pyUpper (s : String) : String :=
  ⟨s.data.map Char.toUpper⟩

/-- Python `str.isdigit()` on ASCII text: non-empty and all decimal digits. -/
def pyIsDigitStr (s : String) : Bool :=
  !s.data.isEmpty && s.data.all Char.isDigit

/-- Numeric value of a string of decimal digits (Python `int(...)` on the
digit-only strings produced by the `\d+` capture groups). -/
def natOfDigits (l : List Char) : Nat :=
  l.foldl (fun a c => a * 10 + (c.toNat - 48)) 0

/-- Python `str.split()` with no argument: split on whitespace runs,
dropping empty pieces. -/
def pySplit (s : String) : List String :=
  (List.splitOnP pyIsSpace s.data).filterMap
    (fun w => if w.isEmpty then none else some ⟨w⟩)

/-- Characters of `l` strictly before the first occurrence of `stop`,
together with the characters after it; `none` when `stop` does not occur.
Models the greedy `[^stop]*` followed by the literal `stop`. -/
def upTo (stop : Char) : List Char → Option (List Char × List Char)
  | [] => none
  | c :: cs =>
    if c = stop then some ([], cs)
    else match upTo stop cs with
      | some (pre, post) => some (c :: pre, post)
      | none => none

/-- Like `upTo` but the prefix must be non-empty: models `[^stop]+` followed
by the literal `stop`. -/
def upTo1 (stop : Char) (l : List Char) : Option (List Char × List Char) :=
  match upTo stop l with
  | some (pre, post) => if pre.isEmpty then none else some (pre, post)
  | none => none

/-- Consume an exact literal character sequence. -/
def lit : List Char → List Char → Option (List Char)
  | [], l => some l
  | c :: cs, x :: xs => if x = c then lit cs xs else none
  | _ :: _, [] => none

/-- Maximal run satisfying `p`, required non-empty: models greedy `p+` when
the following regex element cannot match a `p`-character (true at every use
site below, so no backtracking into the run is ever needed). -/
def run1 (p : Char → Bool) (l : List Char) : Option (List Char × List Char) :=
  let pre := l.takeWhile p
  if pre.isEmpty then none else some (pre, l.drop pre.length)

/-- The alternatives of the level keyword regex
`(ERROR|WARN|WARNING|INFO|DEBUG|CRITICAL|FATAL)` (IGNORECASE), in source
order.  Python's ordered alternation means `WARN` shadows `WARNING`. -/
def levelAlternatives : List String :=
  ["ERROR", "WARN", "WARNING", "INFO", "DEBUG", "CRITICAL", "FATAL"]

/-- Try the level alternatives, in order, as case-insensitive prefixes of
`l`; return the matched original-case text. -/
def matchLevelAt (l : List Char) : Option String :=
  levelAlternatives.findSome? fun kw =>
    let pre := l.take kw.length
    if pre.map Char.toUpper = kw.data then some ⟨pre⟩ else none

/-- Emulates `patterns['level'].search(...)`: scan left to right for the
first position where some alternative matches (case-insensitively). -/
def searchLevel : List Char → Option String
  | [] => none
  | c :: cs =>
    match matchLevelAt (c :: cs) with
    | some m => some m
    | none => searchLevel cs

/-- Emulates `patterns['json'].match(line)` for pattern `^\{.*\}$`
(no DOTALL, no MULTILINE): an optional final newline is tolerated because
`$` also matches just before a trailing `'\n'`; `.*` cannot cross a
newline. -/
def jsonRe (s : String) : Bool :=
  let l := if s.data.getLast? = some '\n' then s.data.dropLast else s.data
  match l with
  | [] => false
  | c :: cs =>
    c = '\x7b' && !cs.isEmpty && cs.getLast? = some '\x7d' && !l.contains '\n'

/-- Emulates `patterns['apache_error'].match(line)` for pattern
`^\[([^\]]+)\] \[([^\]]+)\] (.*)` (no trailing anchor).  The two bracketed
groups stop at the first `]`; the message group `(.*)` runs to the end of
the line or to the first newline. -/
def apacheErrorMatch (s : String) : Option (String × String × String) :=
  match lit ['['] s.data with
  | none => none
  | some r0 =>
    match upTo1 ']' r0 with
    | none => none
    | some (g1, r1) =>
      match lit [' ', '['] r1 with
      | none => none
      | some r2 =>
        match upTo1 ']' r2 with
        | none => none
        | some (g2, r3) =>
          match lit [' '] r3 with
          | none => none
          | some r4 => some (⟨g1⟩, ⟨g2⟩, ⟨r4.takeWhile (· ≠ '\n')⟩)

/-- Emulates `patterns['apache'].match(line)` for pattern
`^(\S+) - - \[([^\]]+)\] "([^"]*)" (\d+) (\d+|-)` (no trailing anchor, so
trailing junk is accepted).  Greedy `\S+` and `\d+` runs never need
backtracking here because the element that follows each of them cannot
match a character of the run. -/
def apacheMatch (s : String) :
    Option (String × String × String × String × String) :=
  match run1 (fun c => !pyIsSpace c) s.data with
  | none => none
  | some (ip, r1) =>
    match lit [' ', '-', ' ', '-', ' ', '['] r1 with
    | none => none
    | some r2 =>
      match upTo1 ']' r2 with
      | none => none
      | some (ts, r3) =>
        match lit [' ', '"'] r3 with
        | none => none
        | some r4 =>
          match upTo '"' r4 with
          | none => none
          | some (req, r5) =>
            match lit [' '] r5 with
            | none => none
            | some r6 =>
              match run1 Char.isDigit r6 with
              | none => none
              | some (st, r7) =>
                match lit [' '] r7 with
                | none => none
                | some r8 =>
                  match run1 Char.isDigit r8 with
                  | some (sz, _) => some (⟨ip⟩, ⟨ts⟩, ⟨req⟩, ⟨st⟩, ⟨sz⟩)
                  | none =>
                    match lit ['-'] r8 with
                    | some _ => some (⟨ip⟩, ⟨ts⟩, ⟨req⟩, ⟨st⟩, "-")
                    | none => none

/-- Emulates `patterns['syslog'].match(line)` for pattern
`^(\w{3}\s+\d{1,2}\s+\d{2}:\d{2}:\d{2})\s+(\S+)\s+([^:]+):\s*(.*)`.
Returned groups: timestamp text, hostname, service, message.

Backtracking notes, mirroring the leftmost-greedy semantics:
* every `\s+`, `\S+` and digit run is maximal, because the element following
  it can never match a character of the run — except for the `\s+` directly
  before `([^:]+)`: when the first colon follows that whitespace run
  immediately, the engine gives one space back to `[^:]+`, so a run of at
  least two spaces yields the single-space service group `" "`;
* `([^:]+)` stops at the first colon at or after its starting position and
  fails when there is none. -/
def syslogMatch (s : String) : Option (String × String × String × String) :=
  match s.data with
  | c1 :: c2 :: c3 :: r0 =>
    if pyIsWord c1 && pyIsWord c2 && pyIsWord c3 then
      match run1 pyIsSpace r0 with
      | none => none
      | some (sp1, r1) =>
        let ds := r1.takeWhile Char.isDigit
        if ds.isEmpty || ds.length > 2 then none
        else
          match run1 pyIsSpace (r1.drop ds.length) with
          | none => none
          | some (sp2, r3) =>
            match r3 with
            | a1 :: a2 :: ':' :: b1 :: b2 :: ':' :: e1 :: e2 :: r4 =>
              if [a1, a2, b1, b2, e1, e2].all Char.isDigit then
                let tsText : List Char :=
                  [c1, c2, c3] ++ sp1 ++ ds ++ sp2 ++
                    [a1, a2, ':', b1, b2, ':', e1, e2]
                match run1 pyIsSpace r4 with
                | none => none
                | some (_, r5) =>
                  match run1 (fun c => !pyIsSpace c) r5 with
                  | none => none
                  | some (host, r6) =>
                    match run1 pyIsSpace r6 with
                    | none => none
                    | some (sps, r7) =>
                      match upTo ':' r7 with
                      | none => none
                      | some (pre, post) =>
                        let msg := (post.dropWhile pyIsSpace).takeWhile (· ≠ '\n')
                        if pre.isEmpty then
                          if sps.length ≥ 2 then
                            some (⟨tsText⟩, ⟨host⟩, " ", ⟨msg⟩)
                          else none
                        else some (⟨tsText⟩, ⟨host⟩, ⟨pre⟩, ⟨msg⟩)
              else none
            | _ => none
    else none
  | _ => none

/-- Emulates `patterns['timestamp'].search(line)` for the anchored pattern
`^(\d{4}-\d{2}-\d{2}[T\s]\d{2}:\d{2}:\d{2})`: without MULTILINE, `^` only
matches at position 0, so `search` behaves like `match`. -/
def genericTsMatch (s : String) : Option String :=
  match s.data with
  | y1 :: y2 :: y3 :: y4 :: '-' :: m1 :: m2 :: '-' :: d1 :: d2 :: sep ::
      h1 :: h2 :: ':' :: n1 :: n2 :: ':' :: s1 :: s2 :: _ =>
    if ([y1, y2, y3, y4, m1, m2, d1, d2, h1, h2, n1, n2, s1, s2].all
          Char.isDigit) && (sep = 'T' || pyIsSpace sep) then
      some ⟨[y1, y2, y3, y4, '-', m1, m2, '-', d1, d2, sep,
             h1, h2, ':', n1, n2, ':', s1, s2]⟩
    else none
  | _ => none

/-! ### Datetime values and `strptime`/`fromisoformat` emulation -/

/-- A fixed UTC offset (`datetime.timezone`), stored as Python's normalised
`timedelta`: a sign together with absolute seconds and microseconds. -/
structure TzOff where
  neg : Bool
  sec : Nat
  usec : Nat
deriving Repr, DecidableEq

/-- A `datetime.datetime` value; `tz = none` is a naive datetime. -/
structure PyDateTime where
  year : Nat := 1900
  month : Nat := 1
  day : Nat := 1
  hour : Nat := 0
  minute : Nat := 0
  second : Nat := 0
  usec : Nat := 0
  tz : Option TzOff := none
deriving Repr, DecidableEq

def leapYear (y : Nat) : Bool :=
  y % 4 = 0 && (y % 100 ≠ 0 || y % 400 = 0)

def daysInMonth (y m : Nat) : Nat :=
  if m = 2 then (if leapYear y then 29 else 28)
  else if m = 4 || m = 6 || m = 9 || m = 11 then 30 else 31

/-- The validation performed by the `datetime` constructor for the field
combinations reachable below (month and time-of-day ranges are already
enforced by the token parsers, so only year bounds and day-of-month remain). -/
def mkDT (y m d hh mi ss us : Nat) (tz : Option TzOff) : Option PyDateTime :=
  if 1 ≤ y && y ≤ 9999 && 1 ≤ d && d ≤ daysInMonth y m then
    some ⟨y, m, d, hh, mi, ss, us, tz⟩
  else none

/-- Left-pad a number with zeros to the given width. -/
def padNum (w n : Nat) : String :=
  let s := toString n
  ⟨List.replicate (w - s.length) '0'⟩ ++ s

/-- Rendering of a UTC offset inside `datetime.isoformat()`:
`±HH:MM`, extended with seconds and microseconds only when non-zero. -/
def TzOff.render (z : TzOff) : String :=
  (if z.neg && (z.sec ≠ 0 || z.usec ≠ 0) then "-" else "+") ++
    padNum 2 (z.sec / 3600) ++ ":" ++ padNum 2 (z.sec % 3600 / 60) ++
    (if z.sec % 60 ≠ 0 || z.usec ≠ 0 then
      ":" ++ padNum 2 (z.sec % 60) ++
        (if z.usec ≠ 0 then "." ++ padNum 6 z.usec else "")
    else "")

/-- Python `datetime.isoformat()`: the canonical sortable rendering,
with microseconds only when non-zero and the offset only when aware. -/
def PyDateTime.isoformat (dt : PyDateTime) : String :=
  padNum 4 dt.year ++ "-" ++ padNum 2 dt.month ++ "-" ++ padNum 2 dt.day ++
    "T" ++ padNum 2 dt.hour ++ ":" ++ padNum 2 dt.minute ++ ":" ++
    padNum 2 dt.second ++
    (if dt.usec ≠ 0 then "." ++ padNum 6 dt.usec else "") ++
    (match dt.tz with
     | none => ""
     | some z => z.render)

/-- Whitespace in a `strptime` format string matches `\s+` in the input. -/
def pSp (l : List Char) : Option (List Char) :=
  (run1 pyIsSpace l).map (·.2)

/-- A one-or-two-digit numeric `strptime` field (`%d`, `%m`, `%H`, `%M`,
`%S`) with an inclusive value range.  In every format below the element
following such a field can never match a digit, so a run of three or more
digits always fails, and a two-digit read falls back to one digit exactly
when its value is out of range — the same behaviour as the ordered
alternations Python compiles these directives to. -/
def pNum2 (lo hi : Nat) (l : List Char) : Option (Nat × List Char) :=
  let ds := l.takeWhile Char.isDigit
  if ds.isEmpty || ds.length > 2 then none
  else if ds.length = 2 then
    let v := natOfDigits (ds.take 2)
    if lo ≤ v && v ≤ hi then some (v, l.drop 2)
    else
      let v1 := natOfDigits (ds.take 1)
      if lo ≤ v1 && v1 ≤ hi then some (v1, l.drop 1) else none
  else
    let v := natOfDigits ds
    if lo ≤ v && v ≤ hi then some (v, l.drop 1) else none

/-- The `strptime` directive `%Y`: exactly four digits. -/
def pYear4 (l : List Char) : Option (Nat × List Char) :=
  match l with
  | a :: b :: c :: d :: r =>
    if [a, b, c, d].all Char.isDigit then some (natOfDigits [a, b, c, d], r)
    else none
  | _ => none

def monthAbbrevs : List String :=
  ["jan", "feb", "mar", "apr", "may", "jun",
   "jul", "aug", "sep", "oct", "nov", "dec"]

def weekdayAbbrevs : List String :=
  ["mon", "tue", "wed", "thu", "fri", "sat", "sun"]

/-- The `strptime` directive `%b`: a case-insensitive three-letter month
abbreviation. -/
def pMonB (l : List Char) : Option (Nat × List Char) :=
  match l with
  | a :: b :: c :: r =>
    match monthAbbrevs.findIdx? (· = String.mk ([a, b, c].map Char.toLower)) with
    | some i => some (i + 1, r)
    | none => none
  | _ => none

/-- The `strptime` directive `%a`: a case-insensitive weekday abbreviation,
parsed and discarded (strptime performs no consistency check). -/
def pWdA (l : List Char) : Option (List Char) :=
  match l with
  | a :: b :: c :: r =>
    if weekdayAbbrevs.contains (String.mk ([a, b, c].map Char.toLower)) then
      some r
    else none
  | _ => none

/-- A case-insensitive literal letter (the whole `strptime` regex is
compiled with IGNORECASE, so the literals `T` and `Z` match both cases). -/
def pLitCI (c : Char) (l : List Char) : Option (List Char) :=
  match l with
  | x :: r => if x.toLower = c.toLower then some r else none
  | [] => none

/-- The `strptime` directive `%f`: one to six digits, scaled to
microseconds. -/
def pMicroF (l : List Char) : Option (Nat × List Char) :=
  let ds := (l.takeWhile Char.isDigit).take 6
  if ds.isEmpty then none
  else some (natOfDigits ds * 10 ^ (6 - ds.length), l.drop ds.length)

/-- Exactly two digits. -/
def pTwoDigit (l : List Char) : Option (Nat × List Char) :=
  match l with
  | a :: b :: r =>
    if a.isDigit && b.isDigit then some (natOfDigits [a, b], r) else none
  | _ => none

/-- Two digits whose value is at most 59 (regex `[0-5]\d`). -/
def pMin59 (l : List Char) : Option (Nat × List Char) :=
  match pTwoDigit l with
  | some (v, r) => if v ≤ 59 then some (v, r) else none
  | none => none

/-- The optional fraction `(\.\d{1,6})?` of the `%z` seconds group. -/
def pTzFrac (l : List Char) : Option (Nat × List Char) :=
  match l with
  | '.' :: r =>
    match pMicroF r with
    | some (us, r1) => some (us, r1)
    | none => some (0, l)
  | _ => some (0, l)

/-- The optional seconds group `(:?[0-5]\d(\.\d{1,6})?)?` of `%z`. -/
def pTzSec (l : List Char) : Option (Nat × Nat × List Char) :=
  let l1 := if l.head? = some ':' then l.drop 1 else l
  match pMin59 l1 with
  | some (ss, r) =>
    match pTzFrac r with
    | some (us, r1) => some (ss, us, r1)
    | none => some (ss, 0, r)
  | none => some (0, 0, l)

/-- The `strptime` directive `%z`, regex
`[+-]\d\d:?[0-5]\d(:?[0-5]\d(\.\d{1,6})?)?|Z` (the `Z` alternative is
case-sensitive).  The resulting offset must be strictly less than 24 hours
in magnitude, the `datetime.timezone` constructor's bound. -/
def pTz (l : List Char) : Option (TzOff × List Char) :=
  match l with
  | 'Z' :: r => some (⟨false, 0, 0⟩, r)
  | sign :: r =>
    if sign = '+' || sign = '-' then
      match pTwoDigit r with
      | none => none
      | some (hh, r1) =>
        let r2 := if r1.head? = some ':' then r1.drop 1 else r1
        match pMin59 r2 with
        | none => none
        | some (mm, r3) =>
          match pTzSec r3 with
          | none => none
          | some (ss, us, r4) =>
            let tot := hh * 3600 + mm * 60 + ss
            if tot < 86400 then
              some (⟨sign = '-' && (tot ≠ 0 || us ≠ 0), tot, us⟩, r4)
            else none
    else none
  | [] => none

/-- Emulation of `datetime.strptime(s, fmt)` for
`fmt = '%d/%b/%Y:%H:%M:%S %z'` (Apache access logs with timezone). -/
def strptimeApacheTz (s : String) : Option PyDateTime :=
  (pNum2 1 31 s.data).bind fun (d, l) =>
  (lit ['/'] l).bind fun l =>
  (pMonB l).bind fun (m, l) =>
  (lit ['/'] l).bind fun l =>
  (pYear4 l).bind fun (y, l) =>
  (lit [':'] l).bind fun l =>
  (pNum2 0 23 l).bind fun (hh, l) =>
  (lit [':'] l).bind fun l =>
  (pNum2 0 59 l).bind fun (mi, l) =>
  (lit [':'] l).bind fun l =>
  (pNum2 0 59 l).bind fun (ss, l) =>
  (pSp l).bind fun l =>
  (pTz l).bind fun (z, l) =>
  if l.isEmpty then mkDT y m d hh mi ss 0 (some z) else none

/-- Emulation of `datetime.strptime(s, '%d/%b/%Y:%H:%M:%S')`. -/
def strptimeApache (s : String) : Option PyDateTime :=
  (pNum2 1 31 s.data).bind fun (d, l) =>
  (lit ['/'] l).bind fun l =>
  (pMonB l).bind fun (m, l) =>
  (lit ['/'] l).bind fun l =>
  (pYear4 l).bind fun (y, l) =>
  (lit [':'] l).bind fun l =>
  (pNum2 0 23 l).bind fun (hh, l) =>
  (lit [':'] l).bind fun l =>
  (pNum2 0 59 l).bind fun (mi, l) =>
  (lit [':'] l).bind fun l =>
  (pNum2 0 59 l).bind fun (ss, l) =>
  if l.isEmpty then mkDT y m d hh mi ss 0 none else none

/-- Emulation of `datetime.strptime(s, '%a %b %d %H:%M:%S %Y')`
(Apache error logs, e.g. `Thu Jun 09 06:07:04 2005`). -/
def strptimeApacheErr (s : String) : Option PyDateTime :=
  (pWdA s.data).bind fun l =>
  (pSp l).bind fun l =>
  (pMonB l).bind fun (m, l) =>
  (pSp l).bind fun l =>
  (pNum2 1 31 l).bind fun (d, l) =>
  (pSp l).bind fun l =>
  (pNum2 0 23 l).bind fun (hh, l) =>
  (lit [':'] l).bind fun l =>
  (pNum2 0 59 l).bind fun (mi, l) =>
  (lit [':'] l).bind fun l =>
  (pNum2 0 59 l).bind fun (ss, l) =>
  (pSp l).bind fun l =>
  (pYear4 l).bind fun (y, l) =>
  if l.isEmpty then mkDT y m d hh mi ss 0 none else none

/-- Emulation of `datetime.strptime(s, '%Y-%m-%d %H:%M:%S')`. -/
def strptimeIsoSpace (s : String) : Option PyDateTime :=
  (pYear4 s.data).bind fun (y, l) =>
  (lit ['-'] l).bind fun l =>
  (pNum2 1 12 l).bind fun (m, l) =>
  (lit ['-'] l).bind fun l =>
  (pNum2 1 31 l).bind fun (d, l) =>
  (pSp l).bind fun l =>
  (pNum2 0 23 l).bind fun (hh, l) =>
  (lit [':'] l).bind fun l =>
  (pNum2 0 59 l).bind fun (mi, l) =>
  (lit [':'] l).bind fun l =>
  (pNum2 0 59 l).bind fun (ss, l) =>
  if l.isEmpty then mkDT y m d hh mi ss 0 none else none

/-- Emulation of `datetime.strptime(s, '%Y-%m-%dT%H:%M:%S')` (the literal
`T` is case-insensitive, as the whole strptime regex is). -/
def strptimeIsoT (s : String) : Option PyDateTime :=
  (pYear4 s.data).bind fun (y, l) =>
  (lit ['-'] l).bind fun l =>
  (pNum2 1 12 l).bind fun (m, l) =>
  (lit ['-'] l).bind fun l =>
  (pNum2 1 31 l).bind fun (d, l) =>
  (pLitCI 'T' l).bind fun l =>
  (pNum2 0 23 l).bind fun (hh, l) =>
  (lit [':'] l).bind fun l =>
  (pNum2 0 59 l).bind fun (mi, l) =>
  (lit [':'] l).bind fun l =>
  (pNum2 0 59 l).bind fun (ss, l) =>
  if l.isEmpty then mkDT y m d hh mi ss 0 none else none

/-- Emulation of `datetime.strptime(s, '%Y-%m-%dT%H:%M:%S.%fZ')`. -/
def strptimeIsoMicro (s : String) : Option PyDateTime :=
  (pYear4 s.data).bind fun (y, l) =>
  (lit ['-'] l).bind fun l =>
  (pNum2 1 12 l).bind fun (m, l) =>
  (lit ['-'] l).bind fun l =>
  (pNum2 1 31 l).bind fun (d, l) =>
  (pLitCI 'T' l).bind fun l =>
  (pNum2 0 23 l).bind fun (hh, l) =>
  (lit [':'] l).bind fun l =>
  (pNum2 0 59 l).bind fun (mi, l) =>
  (lit [':'] l).bind fun l =>
  (pNum2 0 59 l).bind fun (ss, l) =>
  (lit ['.'] l).bind fun l =>
  (pMicroF l).bind fun (us, l) =>
  (pLitCI 'Z' l).bind fun l =>
  if l.isEmpty then mkDT y m d hh mi ss us none else none

/-- Emulation of `datetime.strptime(s, '%b %d %H:%M:%S')` (syslog,
e.g. `Jun  9 06:07:04`).  The implicit year is 1900, so `Feb 29` is
rejected here, before any current-year substitution. -/
def strptimeSyslogTs (s : String) : Option PyDateTime :=
  (pMonB s.data).bind fun (m, l) =>
  (pSp l).bind fun l =>
  (pNum2 1 31 l).bind fun (d, l) =>
  (pSp l).bind fun l =>
  (pNum2 0 23 l).bind fun (hh, l) =>
  (lit [':'] l).bind fun l =>
  (pNum2 0 59 l).bind fun (mi, l) =>
  (lit [':'] l).bind fun l =>
  (pNum2 0 59 l).bind fun (ss, l) =>
  if l.isEmpty then mkDT 1900 m d hh mi ss 0 none else none

/-- Emulation of `datetime.strptime(s, '%a %b %d %H:%M:%S')`. -/
def strptimeWeekdayTs (s : String) : Option PyDateTime :=
  (pWdA s.data).bind fun l =>
  (pSp l).bind fun l =>
  (pMonB l).bind fun (m, l) =>
  (pSp l).bind fun l =>
  (pNum2 1 31 l).bind fun (d, l) =>
  (pSp l).bind fun l =>
  (pNum2 0 23 l).bind fun (hh, l) =>
  (lit [':'] l).bind fun l =>
  (pNum2 0 59 l).bind fun (mi, l) =>
  (lit [':'] l).bind fun l =>
  (pNum2 0 59 l).bind fun (ss, l) =>
  if l.isEmpty then mkDT 1900 m d hh mi ss 0 none else none

/-- Python `dt.replace(year=currentYear)`, validating the new year bounds
and day-of-month; a failure is the `ValueError` that makes the source
`continue` with the next year-less layout. -/
def replaceYear (y : Nat) (dt : PyDateTime) : Option PyDateTime :=
  if 1 ≤ y && y ≤ 9999 && dt.day ≤ daysInMonth y dt.month then
    some { dt with year := y }
  else none

/-- The `formats_with_year` list of `_parse_timestamp`, in source order. -/
def layoutsWithYear : List (String → Option PyDateTime) :=
  [strptimeApacheTz, strptimeApache, strptimeApacheErr,
   strptimeIsoSpace, strptimeIsoT, strptimeIsoMicro]

/-- The `formats_without_year` list of `_parse_timestamp`, in source
order. -/
def layoutsNoYear : List (String → Option PyDateTime) :=
  [strptimeSyslogTs, strptimeWeekdayTs]

/-- The `for fmt in formats_with_year` loop: the first layout that parses
wins; a `ValueError` (`none`) moves on to the next layout. -/
def tryLayouts : List (String → Option PyDateTime) → String → Option PyDateTime
  | [], _ => none
  | f :: fs, s =>
    match f s with
    | some dt => some dt
    | none => tryLayouts fs s

/-- The `for fmt in formats_without_year` loop: each layout is parsed and
then re-dated with `dt.replace(year=currentYear)`; a `ValueError` from
either step moves on to the next layout. -/
def tryLayoutsYearless (y : Nat) :
    List (String → Option PyDateTime) → String → Option PyDateTime
  | [], _ => none
  | f :: fs, s =>
    match (f s).bind (replaceYear y) with
    | some dt => some dt
    | none => tryLayoutsYearless y fs s

/-- The timestamp normalizer `LogParser._parse_timestamp`: try the six
year-carrying layouts in order, then the two year-less layouts (with the
current calendar year substituted), rendering the first success with
`isoformat()`; if everything fails, return the input unchanged.
`currentYear` stands for `datetime.now().year`. -/
def parse_timestamp (currentYear : Nat) (s : String) : String :=
  match tryLayouts layoutsWithYear s with
  | some dt => dt.isoformat
  | none =>
    match tryLayoutsYearless currentYear layoutsNoYear s with
    | some dt => dt.isoformat
    | none => s

/-! ### JSON values and `json.loads` emulation -/

/-- A JSON value as decoded by `json.loads`.  Numbers keep their source
lexeme (no claim reads a JSON number's value, only its truthiness);
`obj` keeps fields in document order, and lookups take the last
occurrence of a key, matching dict construction. -/
inductive JVal where
  | str (s : String)
  | num (lex : String)
  | bool (b : Bool)
  | null
  | arr (elems : List JVal)
  | obj (fields : List (String × JVal))

/-- Whether a numeric lexeme denotes zero (Python `bool(0.0) = False`):
it has digits and all its mantissa digits are `0`.  `NaN`/`Infinity`
have no digits in the mantissa and are truthy. -/
def numIsZero (lex : String) : Bool :=
  let mant := lex.data.takeWhile fun c => c ≠ 'e' && c ≠ 'E'
  !(mant.filter Char.isDigit).isEmpty && (mant.filter Char.isDigit).all (· = '0')

/-- Python truthiness of a decoded JSON value. -/
def JVal.truthy : JVal → Bool
  | .str s => !s.isEmpty
  | .num lex => !numIsZero lex
  | .bool b => b
  | .null => false
  | .arr l => !l.isEmpty
  | .obj l => !l.isEmpty

/-- Projection of a JSON value into the string-typed record fields of the
data model.  The source stores the raw decoded value; the record shape
types these fields as strings, so non-string payloads (reachable only for
truthy non-string JSON values, which no claim exercises) are rendered to a
placeholder here. -/
def JVal.render : JVal → String
  | .str s => s
  | .num lex => lex
  | .bool b => if b then "True" else "False"
  | .null => "None"
  | .arr _ => "[...]"
  | .obj _ => "\x7b...\x7d"

/-- Dict lookup: the last occurrence of a duplicated key wins. -/
def jLookup (fields : List (String × JVal)) (k : String) : Option JVal :=
  (fields.reverse.find? fun p => p.1 == k).map (·.2)

/-- The Python `data.get(k1) or data.get(k2) or ...` chain: the first
key whose value is present and truthy. -/
def jChain (fields : List (String × JVal)) (keys : List String) : Option JVal :=
  keys.findSome? fun k =>
    match jLookup fields k with
    | some v => if v.truthy then some v else none
    | none => none

/-- The whitespace accepted between JSON tokens by `json.loads`. -/
def jsonWs (c : Char) : Bool :=
  c = ' ' || c = '\t' || c = '\n' || c = '\r'

def hexVal (c : Char) : Option Nat :=
  if '0' ≤ c && c ≤ '9' then some (c.toNat - 48)
  else if 'a' ≤ c && c ≤ 'f' then some (c.toNat - 87)
  else if 'A' ≤ c && c ≤ 'F' then some (c.toNat - 55)
  else none

/-- Body of a JSON string after the opening quote: strict mode (unescaped
control characters rejected), the standard escapes, `\uXXXX` with
surrogate-pair combination.  Python retains a lone surrogate in the
resulting `str`; such a code point is not a valid `Char`, so it is mapped
to U+FFFD here (no claim exercises lone surrogates). -/
def parseJStrBody : Nat → List Char → Option (List Char × List Char)
  | 0, _ => none
  | fuel + 1, l =>
    match l with
    | '"' :: r => some ([], r)
    | '\\' :: esc =>
      match esc with
      | '"' :: r =>
        (parseJStrBody fuel r).map fun (cs, r1) => ('"' :: cs, r1)
      | '\\' :: r =>
        (parseJStrBody fuel r).map fun (cs, r1) => ('\\' :: cs, r1)
      | '/' :: r =>
        (parseJStrBody fuel r).map fun (cs, r1) => ('/' :: cs, r1)
      | 'b' :: r =>
        (parseJStrBody fuel r).map fun (cs, r1) => ('\x08' :: cs, r1)
      | 'f' :: r =>
        (parseJStrBody fuel r).map fun (cs, r1) => ('\x0c' :: cs, r1)
      | 'n' :: r =>
        (parseJStrBody fuel r).map fun (cs, r1) => ('\n' :: cs, r1)
      | 'r' :: r =>
        (parseJStrBody fuel r).map fun (cs, r1) => ('\r' :: cs, r1)
      | 't' :: r =>
        (parseJStrBody fuel r).map fun (cs, r1) => ('\t' :: cs, r1)
      | 'u' :: h1 :: h2 :: h3 :: h4 :: r =>
        match hexVal h1, hexVal h2, hexVal h3, hexVal h4 with
        | some a, some b, some c, some d =>
          let cp := ((a * 16 + b) * 16 + c) * 16 + d
          if 0xD800 ≤ cp && cp ≤ 0xDBFF then
            match r with
            | '\\' :: 'u' :: g1 :: g2 :: g3 :: g4 :: r2 =>
              match hexVal g1, hexVal g2, hexVal g3, hexVal g4 with
              | some a2, some b2, some c2, some d2 =>
                let cp2 := ((a2 * 16 + b2) * 16 + c2) * 16 + d2
                if 0xDC00 ≤ cp2 && cp2 ≤ 0xDFFF then
                  (parseJStrBody fuel r2).map fun (cs, r3) =>
                    (Char.ofNat (0x10000 + (cp - 0xD800) * 0x400 +
                      (cp2 - 0xDC00)) :: cs, r3)
                else
                  (parseJStrBody fuel r).map fun (cs, r3) =>
                    ('�' :: cs, r3)
              | _, _, _, _ =>
                (parseJStrBody fuel r).map fun (cs, r3) => ('�' :: cs, r3)
            | _ =>
              (parseJStrBody fuel r).map fun (cs, r3) => ('�' :: cs, r3)
          else if 0xDC00 ≤ cp && cp ≤ 0xDFFF then
            (parseJStrBody fuel r).map fun (cs, r3) => ('�' :: cs, r3)
          else
            (parseJStrBody fuel r).map fun (cs, r3) => (Char.ofNat cp :: cs, r3)
        | _, _, _, _ => none
      | _ => none
    | c :: r =>
      if c.toNat < 0x20 then none
      else (parseJStrBody fuel r).map fun (cs, r1) => (c :: cs, r1)
    | [] => none

/-- Fraction and exponent continuation of a JSON number lexeme. -/
def parseJNumFrac (acc : List Char) (l : List Char) :
    Option (List Char × List Char) :=
  let (acc1, l1) :=
    match l with
    | '.' :: r =>
      let ds := r.takeWhile Char.isDigit
      if ds.isEmpty then (none, l)
      else (some (acc ++ '.' :: ds), r.drop ds.length)
    | _ => (some acc, l)
  match acc1 with
  | none => none
  | some acc2 =>
    match l1 with
    | e :: r =>
      if e = 'e' || e = 'E' then
        let (sg, r1) :=
          match r with
          | '+' :: r2 => (['+'], r2)
          | '-' :: r2 => (['-'], r2)
          | _ => ([], r)
        let ds := r1.takeWhile Char.isDigit
        if ds.isEmpty then some (acc2, l1)
        else some (acc2 ++ e :: (sg ++ ds), r1.drop ds.length)
      else some (acc2, l1)
    | [] => some (acc2, l1)

/-- A JSON number lexeme: `-?(0|[1-9][0-9]*)(\.[0-9]+)?([eE][+-]?[0-9]+)?`. -/
def parseJNum (l : List Char) : Option (List Char × List Char) :=
  let (sign, l1) :=
    match l with
    | '-' :: r => (['-'], r)
    | _ => ([], l)
  match l1 with
  | '0' :: r0 => parseJNumFrac (sign ++ ['0']) r0
  | c :: _ =>
    if c.isDigit && c ≠ '0' then
      let ds := l1.takeWhile Char.isDigit
      parseJNumFrac (sign ++ ds) (l1.drop ds.length)
    else none
  | [] => none

mutual

/-- One JSON value (with leading whitespace), as accepted by `json.loads`,
including Python's non-standard `NaN`/`Infinity`/`-Infinity` constants. -/
def parseJVal : Nat → List Char → Option (JVal × List Char)
  | 0, _ => none
  | fuel + 1, l =>
    match l.dropWhile jsonWs with
    | '"' :: r =>
      (parseJStrBody (r.length + 1) r).map fun (cs, r1) => (JVal.str ⟨cs⟩, r1)
    | '\x7b' :: r =>
      match r.dropWhile jsonWs with
      | '\x7d' :: r1 => some (JVal.obj [], r1)
      | _ => (parseJMembers fuel r).map fun (fs, r1) => (JVal.obj fs, r1)
    | '[' :: r =>
      match r.dropWhile jsonWs with
      | ']' :: r1 => some (JVal.arr [], r1)
      | _ => (parseJElems fuel r).map fun (es, r1) => (JVal.arr es, r1)
    | 't' :: 'r' :: 'u' :: 'e' :: r => some (JVal.bool true, r)
    | 'f' :: 'a' :: 'l' :: 's' :: 'e' :: r => some (JVal.bool false, r)
    | 'n' :: 'u' :: 'l' :: 'l' :: r => some (JVal.null, r)
    | 'N' :: 'a' :: 'N' :: r => some (JVal.num "NaN", r)
    | 'I' :: 'n' :: 'f' :: 'i' :: 'n' :: 'i' :: 't' :: 'y' :: r =>
      some (JVal.num "Infinity", r)
    | '-' :: 'I' :: 'n' :: 'f' :: 'i' :: 'n' :: 'i' :: 't' :: 'y' :: r =>
      some (JVal.num "-Infinity", r)
    | rest =>
      (parseJNum rest).map fun (lex, r1) => (JVal.num ⟨lex⟩, r1)

/-- The members of a JSON object, after the opening brace (first member
expected). -/
def parseJMembers : Nat → List Char → Option (List (String × JVal) × List Char)
  | 0, _ => none
  | fuel + 1, l =>
    match l.dropWhile jsonWs with
    | '"' :: r =>
      match parseJStrBody (r.length + 1) r with
      | none => none
      | some (kcs, r1) =>
        match r1.dropWhile jsonWs with
        | ':' :: r2 =>
          match parseJVal fuel r2 with
          | none => none
          | some (v, r3) =>
            match r3.dropWhile jsonWs with
            | ',' :: r4 =>
              (parseJMembers fuel r4).map fun (fs, r5) =>
                ((⟨kcs⟩, v) :: fs, r5)
            | '\x7d' :: r4 => some ([(⟨kcs⟩, v)], r4)
            | _ => none
        | _ => none
    | _ => none

/-- The elements of a JSON array, after the opening bracket (first element
expected). -/
def parseJElems : Nat → List Char → Option (List JVal × List Char)
  | 0, _ => none
  | fuel + 1, l =>
    match parseJVal fuel l with
    | none => none
    | some (v, r) =>
      match r.dropWhile jsonWs with
      | ',' :: r1 =>
        (parseJElems fuel r1).map fun (es, r2) => (v :: es, r2)
      | ']' :: r1 => some ([v], r1)
      | _ => none

end

/-- Emulation of `json.loads` on one line: one JSON value, with only
whitespace allowed after it. -/
def jsonLoads (s : String) : Option JVal :=
  match parseJVal (2 * s.length + 4) s.data with
  | some (v, rest) =>
    if (rest.dropWhile jsonWs).isEmpty then some v else none
  | none => none

/-! ### The normalized record and the five extractors -/

/-- The `LogRecord` data model: the dictionary produced for one parsed
line.  An `Option` field models a key that may be missing (or present
with value `None`, which every consumer treats identically through
`dict.get` with a falsy default). -/
structure LogRecord where
  line_number : Nat
  timestamp : Option String := none
  level : Option String := none
  message : Option String := none
  service : Option String := none
  hostname : Option String := none
  ip_address : Option String := none
  method : Option String := none
  url : Option String := none
  status_code : Option Nat := none
  response_size : Option Nat := none
  raw_line : String
  format : String
deriving Repr, DecidableEq

/-- `LogParser._parse_generic_line`: best-effort extraction; always
produces a record. -/
def _parse_generic_line (line : String) (n : Nat) : Option LogRecord :=
  some { line_number := n
         timestamp := genericTsMatch line
         level := some (((searchLevel line.data).map pyUpper).getD "INFO")
         message := some line
         raw_line := line
         format := "generic" }

/-- `LogParser._parse_json_line`: decode the line with `json.loads`; a
decode failure degrades to the generic extractor.  The `some _` branch
(a successful decode that is not an object) is unreachable from
`parse_line`, whose classifier requires the line to start with a brace;
the source would raise `AttributeError` there. -/
def _parse_json_line (line : String) (n : Nat) : Option LogRecord :=
  match jsonLoads line with
  | some (.obj d) =>
    some { line_number := n
           timestamp := (jChain d ["timestamp", "time", "@timestamp"]).map JVal.render
           level := some (((jChain d ["level", "severity"]).map JVal.render).getD "INFO")
           message := some (((jChain d ["message", "msg"]).map JVal.render).getD line)
           service := (jChain d ["service", "app"]).map JVal.render
           raw_line := line
           format := "json" }
  | some _ => _parse_generic_line line n
  | none => _parse_generic_line line n

/-- `LogParser._parse_apache_line`.  Note that it stores no `level` and no
`message` key.  `currentYear` parameterizes the timestamp normalizer. -/
def _parse_apache_line (currentYear : Nat) (line : String) (n : Nat) :
    Option LogRecord :=
  match apacheMatch line with
  | some (ip, ts, req, st, sz) =>
    some { line_number := n
           timestamp := some (parse_timestamp currentYear ts)
           ip_address := some ip
           method := some ((pySplit req).getD 0 "")
           url := some ((pySplit req).getD 1 "")
           status_code := some (if pyIsDigitStr st then natOfDigits st.data else 0)
           response_size := some (if pyIsDigitStr sz then natOfDigits sz.data else 0)
           raw_line := line
           format := "apache" }
  | none => none

/-- `LogParser._parse_apache_error_line`: the bracketed level is stored
upper-cased, unrestricted (e.g. `[notice]` yields level `NOTICE`). -/
def _parse_apache_error_line (currentYear : Nat) (line : String) (n : Nat) :
    Option LogRecord :=
  match apacheErrorMatch line with
  | some (ts, lvl, msg) =>
    some { line_number := n
           timestamp := some (parse_timestamp currentYear ts)
           level := some (pyUpper lvl)
           message := some msg
           raw_line := line
           format := "apache_error" }
  | none => none

/-- `LogParser._parse_syslog_line`: the level is searched for inside the
message body, defaulting to `INFO`. -/
def _parse_syslog_line (currentYear : Nat) (line : String) (n : Nat) :
    Option LogRecord :=
  match syslogMatch line with
  | some (ts, host, svc, msg) =>
    some { line_number := n
           timestamp := some (parse_timestamp currentYear ts)
           hostname := some host
           service := some svc
           level := some (((searchLevel msg.data).map pyUpper).getD "INFO")
           message := some msg
           raw_line := line
           format := "syslog" }
  | none => none

/-- `LogParser.parse_line`: ordered format classification, first match
wins; unclassified lines go to the generic extractor. -/
def parse_line (currentYear : Nat) (line : String) (n : Nat) : Option LogRecord :=
  if jsonRe line then _parse_json_line line n
  else if (apacheErrorMatch line).isSome then
    _parse_apache_error_line currentYear line n
  else if (apacheMatch line).isSome then _parse_apache_line currentYear line n
  else if (syslogMatch line).isSome then _parse_syslog_line currentYear line n
  else _parse_generic_line line n

/-- The loop of `LogParser.parse_file` over the decoded lines of a local
file with `sample_rate = 1.0` (no sampling): the cap is checked before
each line, blank (post-strip) lines are skipped without counting, and
each parsed record counts toward the cap.  `lineNum` is the 1-based
`enumerate` index, `processed` the emitted-record counter. -/
def parse_file_go (currentYear : Nat) (maxLines : Nat) :
    List String → Nat → Nat → List LogRecord
  | [], _, _ => []
  | line :: rest, lineNum, processed =>
    if maxLines ≤ processed then []
    else
      let s := pyStrip line
      if s = "" then parse_file_go currentYear maxLines rest (lineNum + 1) processed
      else
        match parse_line currentYear s lineNum with
        | some r =>
          r :: parse_file_go currentYear maxLines rest (lineNum + 1) (processed + 1)
        | none => parse_file_go currentYear maxLines rest (lineNum + 1) processed

/-- `LogParser.parse_file` on the local-file branch with
`sample_rate = 1.0`; the file is represented by its decoded lines.  The
remote-storage branch and the probabilistic sampling branch involve the
storage collaborator and `random`, outside this deterministic model. -/
def parse_file (currentYear : Nat) (lines : List String) (maxLines : Nat) :
    List LogRecord :=
  parse_file_go currentYear maxLines lines 1 0

/-! ### Anomaly detection (`services/anomalies.py`) -/

/-- The time part of `datetime.fromisoformat` (extended forms):
`HH[:MM[:SS[(.|,)digits]]]`, fraction truncated to microseconds. -/
def pyIsoTimePart (l : List Char) :
    Option ((Nat × Nat × Nat × Nat) × List Char) :=
  (pTwoDigit l).bind fun (hh, r) =>
  if hh > 23 then none
  else
    match r with
    | ':' :: r1 =>
      (pTwoDigit r1).bind fun (mi, r2) =>
      if mi > 59 then none
      else
        match r2 with
        | ':' :: r3 =>
          (pTwoDigit r3).bind fun (ss, r4) =>
          if ss > 59 then none
          else
            match r4 with
            | c :: r5 =>
              if c = '.' || c = ',' then
                let ds := r5.takeWhile Char.isDigit
                if ds.isEmpty then none
                else
                  some ((hh, mi, ss,
                    natOfDigits (ds.take 6) * 10 ^ (6 - min 6 ds.length)),
                    r5.drop ds.length)
              else some ((hh, mi, ss, 0), r4)
            | [] => some ((hh, mi, ss, 0), [])
        | _ => some ((hh, mi, 0, 0), r2)
    | _ => some ((hh, 0, 0, 0), r)

/-- The offset part of `datetime.fromisoformat`:
`±HH`, `±HH:MM[:SS[.digits]]` or `±HHMM[SS]`, bounded below 24 hours. -/
def pyIsoOffset (l : List Char) : Option (Option TzOff × List Char) :=
  match l with
  | [] => some (none, [])
  | c :: r =>
    if c = '+' || c = '-' then
      (pTwoDigit r).bind fun (hh, r1) =>
      let mk := fun (mi ss us : Nat) (rest : List Char) =>
        let tot := hh * 3600 + mi * 60 + ss
        if tot < 86400 then
          some ((some ⟨c = '-' && (tot ≠ 0 || us ≠ 0), tot, us⟩ : Option TzOff),
            rest)
        else none
      match r1 with
      | ':' :: r2 =>
        (pTwoDigit r2).bind fun (mi, r3) =>
        if mi > 59 then none
        else
          match r3 with
          | ':' :: r4 =>
            (pTwoDigit r4).bind fun (ss, r5) =>
            if ss > 59 then none
            else
              match r5 with
              | '.' :: r6 =>
                let ds := r6.takeWhile Char.isDigit
                if ds.isEmpty then none
                else
                  mk mi ss (natOfDigits (ds.take 6) * 10 ^ (6 - min 6 ds.length))
                    (r6.drop ds.length)
              | _ => mk mi ss 0 r5
          | _ => mk mi 0 0 r3
      | _ =>
        match pTwoDigit r1 with
        | some (mi, r2) =>
          if mi > 59 then none
          else
            match pTwoDigit r2 with
            | some (ss, r3) => if ss > 59 then none else mk mi ss 0 r3
            | none => mk mi 0 0 r2
        | none => mk 0 0 0 r1
    else none

/-- Emulation of `datetime.fromisoformat` (Python ≥ 3.11) for the extended
ISO-8601 forms: `YYYY-MM-DD`, optionally one separator character (any
character) and a time with optional fraction, optionally a UTC offset.
The basic (digit-only) and week-date forms are not modelled; nothing in
the repository produces them. -/
def pyFromIso (s : String) : Option PyDateTime :=
  match s.data with
  | y1 :: y2 :: y3 :: y4 :: '-' :: m1 :: m2 :: '-' :: d1 :: d2 :: rest =>
    if [y1, y2, y3, y4, m1, m2, d1, d2].all Char.isDigit then
      let y := natOfDigits [y1, y2, y3, y4]
      let m := natOfDigits [m1, m2]
      let d := natOfDigits [d1, d2]
      if 1 ≤ y && 1 ≤ m && m ≤ 12 && 1 ≤ d && d ≤ daysInMonth y m then
        match rest with
        | [] => some ⟨y, m, d, 0, 0, 0, 0, none⟩
        | _ :: timeRest =>
          (pyIsoTimePart timeRest).bind fun ((hh, mi, ss, us), r1) =>
          (pyIsoOffset r1).bind fun (tz, r2) =>
          if r2.isEmpty then some ⟨y, m, d, hh, mi, ss, us, tz⟩ else none
      else none
    else none
  | _ => none

/-- Python `ts.replace('Z', '+00:00')`: every occurrence of the
single-character pattern `Z` is expanded. -/
def replaceZ : List Char → List Char
  | [] => []
  | 'Z' :: r => '+' :: '0' :: '0' :: ':' :: '0' :: '0' :: replaceZ r
  | c :: r => c :: replaceZ r

/-- The timestamp-recovery ladder shared by the detector passes:
`datetime.fromisoformat(ts.replace('Z', '+00:00'))`, then
`strptime` with `'%Y-%m-%d %H:%M:%S'` and `'%Y-%m-%dT%H:%M:%S'` applied
to the original string; `none` means the record is skipped. -/
def detParseTs (ts : String) : Option PyDateTime :=
  match pyFromIso ⟨replaceZ ts.data⟩ with
  | some dt => some dt
  | none =>
    match strptimeIsoSpace ts with
    | some dt => some dt
    | none => strptimeIsoT ts

/-- Day count of a proleptic-Gregorian civil date (days since 0000-03-01),
used to compare aware datetimes as instants. -/
def daysFromCivil (y m d : Nat) : Nat :=
  let y1 := if m ≤ 2 then y - 1 else y
  let era := y1 / 400
  let yoe := y1 % 400
  let mp := if 2 < m then m - 3 else m + 9
  let doy := (153 * mp + 2) / 5 + d - 1
  let doe := yoe * 365 + yoe / 4 - yoe / 100 + doy
  era * 146097 + doe

/-- The signed UTC offset of a `TzOff` in microseconds. -/
def TzOff.totalUs (z : TzOff) : Int :=
  (if z.neg then -1 else 1) * ((z.sec : Int) * 1000000 + (z.usec : Int))

/-- The instant denoted by a datetime, in microseconds (offset applied
when aware; for naive datetimes this is a lexicographic encoding of the
field tuple). -/
def PyDateTime.epochUs (dt : PyDateTime) : Int :=
  ((daysFromCivil dt.year dt.month dt.day : Int) * 86400 +
    (dt.hour : Int) * 3600 + (dt.minute : Int) * 60 + (dt.second : Int)) *
      1000000 + (dt.usec : Int) -
    (match dt.tz with
     | some z => z.totalUs
     | none => 0)

/-- Python `datetime.__eq__` as used for dict keys: naive datetimes
compare fieldwise, aware datetimes compare as instants, and a naive and
an aware datetime are never equal. -/
def pyDtEq (a b : PyDateTime) : Bool :=
  match a.tz, b.tz with
  | none, none => a == b
  | some _, some _ => a.epochUs == b.epochUs
  | _, _ => false

/-- Python `datetime.__lt__`-based ordering for `sorted`.  Python raises
`TypeError` when a naive and an aware datetime are compared; that mix is
unreachable from every claim, and is ordered naive-first here to keep the
function total. -/
def pyDtLe (a b : PyDateTime) : Bool :=
  match a.tz, b.tz with
  | none, some _ => true
  | some _, none => false
  | _, _ => a.epochUs ≤ b.epochUs

/-- Accumulator pass for `dedupBy`: `seen` holds the keys already
emitted. -/
def dedupByAux (eq : α → α → Bool) (seen : List α) : List α → List α
  | [] => []
  | x :: xs =>
    if seen.any fun y => eq y x then dedupByAux eq seen xs
    else x :: dedupByAux eq (x :: seen) xs

/-- First occurrences of a list under an equivalence test, in order:
the key sequence of a `defaultdict`/`Counter` fold. -/
def dedupBy (eq : α → α → Bool) (l : List α) : List α :=
  dedupByAux eq [] l

/-- Stable insertion into a sorted list: `x` goes before the first `y`
with `le x y`. -/
def insertLe (le : α → α → Bool) (x : α) : List α → List α
  | [] => [x]
  | y :: ys => if le x y then x :: y :: ys else y :: insertLe le x ys

/-- Stable insertion sort (a model of Python's stable `sorted`): with a
reflexive total `le`, an earlier element precedes any equivalent later
one. -/
def isortBy (le : α → α → Bool) : List α → List α
  | [] => []
  | x :: xs => insertLe le x (isortBy le xs)

/-- Occurrence counts in first-occurrence order (`collections.Counter`). -/
def tallyBy (eq : α → α → Bool) (l : List α) : List (α × Nat) :=
  (dedupBy eq l).map fun x => (x, l.countP (eq x))

/-- Population mean of a list of rationals (`statistics.mean`, exact). -/
def listMean (xs : List ℚ) : ℚ :=
  xs.sum / (xs.length : ℚ)

/-- Square of `statistics.stdev` (the sample variance, denominator
`n - 1`); only evaluated where the source guarantees `n ≥ 2`.  The
comparisons against `k·stdev` below are encoded sqrt-free through this
quantity: `stdev > 0 ↔ var > 0`, `|x| > k·stdev ↔ x^2 > k^2·var`, and
`x > k·stdev ↔ (x > 0 ∧ x^2 > k^2·var)`, whenever `var > 0`. -/
def sampleVar (xs : List ℚ) : ℚ :=
  (xs.map fun x => (x - listMean xs) ^ 2).sum / ((xs.length : ℚ) - 1)

/-- The details payload of one finding, carrying the numeric evidence the
source stores in the `details` dict.  The source's `description` strings
(float-formatted prose) and the `deviation` entries (`|x - mean|/stdev`,
an irrational quantity whose square is `(x - mean)^2 / var`) are not
modelled; no claim references them. -/
inductive AnomalyDetails where
  | errorSpike (currentRate normalRate : ℚ)
  | unusualPattern (message : String) (count : Nat) (percentage : ℚ)
  | frequencyAnomaly (currentCount : Nat) (normalCount : ℚ)
  | timeAnomaly (hour : Nat)
  | ipAnomaly (ip : String) (totalRequests : Nat) (errorRate : ℚ)
      (errorCount : Nat)
  | statusAnomaly (statusCode : Nat) (count : Nat) (percentage : ℚ)
      (totalRequests : Nat)
deriving Repr, DecidableEq

/-- One detector finding. -/
structure Anomaly where
  type : String
  severity : String
  timestamp : Option String := none
  details : AnomalyDetails
deriving Repr, DecidableEq

/-- The level classification shared by the level-based detectors:
`log.get('level', '').upper() in ['ERROR', 'CRITICAL', 'FATAL']`. -/
def isErrorLevel (r : LogRecord) : Bool :=
  ["ERROR", "CRITICAL", "FATAL"].contains (pyUpper (r.level.getD ""))

/-- The hour bucket of a record: a truthy timestamp string that the
detector ladder can parse, truncated with
`dt.replace(minute=0, second=0, microsecond=0)`. -/
def recHourKey (r : LogRecord) : Option PyDateTime :=
  match r.timestamp with
  | some ts =>
    if ts = "" then none
    else (detParseTs ts).map fun dt => { dt with minute := 0, second := 0, usec := 0 }
  | none => none

/-- `hourly_total[k]` of `_detect_error_spikes`. -/
def hourlyTotal (rs : List LogRecord) (k : PyDateTime) : Nat :=
  rs.countP fun r =>
    match recHourKey r with
    | some k2 => pyDtEq k2 k
    | none => false

/-- `hourly_errors[k]` of `_detect_error_spikes`. -/
def hourlyErrors (rs : List LogRecord) (k : PyDateTime) : Nat :=
  rs.countP fun r =>
    (match recHourKey r with
     | some k2 => pyDtEq k2 k
     | none => false) && isErrorLevel r

/-- The hour buckets in first-occurrence order. -/
def hourKeys (rs : List LogRecord) : List PyDateTime :=
  dedupBy pyDtEq (rs.filterMap recHourKey)

/-- `AnomalyDetector._detect_error_spikes`: hourly error rates, flagged
when `stdev > 0` and `|rate - mean| > 2·stdev` (both encoded sqrt-free),
iterating hours in sorted order. -/
def _detect_error_spikes (rs : List LogRecord) : List Anomaly :=
  let rates := (isortBy pyDtLe (hourKeys rs)).map fun k =>
    (k, (hourlyErrors rs k : ℚ) / (hourlyTotal rs k : ℚ))
  if 1 < rates.length then
    let xs := rates.map (·.2)
    let μ := listMean xs
    let v := sampleVar xs
    rates.filterMap fun kr =>
      if 0 < v ∧ 4 * v < (kr.2 - μ) ^ 2 then
        some { type := "error_spike"
               severity :=
                 if μ < kr.2 ∧ 9 * v < (kr.2 - μ) ^ 2 then "high" else "medium"
               timestamp := some kr.1.isoformat
               details := .errorSpike kr.2 μ }
      else none
  else []

/-- The minute bucket of a record
(`dt.replace(second=0, microsecond=0)`). -/
def recMinuteKey (r : LogRecord) : Option PyDateTime :=
  match r.timestamp with
  | some ts =>
    if ts = "" then none
    else (detParseTs ts).map fun dt => { dt with second := 0, usec := 0 }
  | none => none

/-- `minute_counts[k]` of `_detect_frequency_anomalies`. -/
def minuteCount (rs : List LogRecord) (k : PyDateTime) : Nat :=
  rs.countP fun r =>
    match recMinuteKey r with
    | some k2 => pyDtEq k2 k
    | none => false

/-- The minute buckets in first-occurrence (dict iteration) order. -/
def minuteKeys (rs : List LogRecord) : List PyDateTime :=
  dedupBy pyDtEq (rs.filterMap recMinuteKey)

/-- `AnomalyDetector._detect_frequency_anomalies`: per-minute volumes,
flagged when `stdev > 0` and `count > mean + 2·stdev` (sqrt-free
encoding), iterating buckets in insertion order. -/
def _detect_frequency_anomalies (rs : List LogRecord) : List Anomaly :=
  let keys := minuteKeys rs
  if keys.isEmpty then []
  else
    let counts := keys.map fun k => (minuteCount rs k : ℚ)
    let μ := listMean counts
    let v := if 1 < counts.length then sampleVar counts else 0
    keys.filterMap fun k =>
      let c := minuteCount rs k
      if 0 < v ∧ μ < (c : ℚ) ∧ 4 * v < ((c : ℚ) - μ) ^ 2 then
        some { type := "frequency_anomaly"
               severity := "medium"
               timestamp := some k.isoformat
               details := .frequencyAnomaly c μ }
      else none

/-- `AnomalyDetector._detect_time_anomalies`: one `low` finding per
error-level record whose parsed hour lies outside business hours
`range(9, 18)`; the finding carries the record's original timestamp
string. -/
def _detect_time_anomalies (rs : List LogRecord) : List Anomaly :=
  rs.filterMap fun r =>
    match r.timestamp with
    | some ts =>
      if ts = "" then none
      else
        match detParseTs ts with
        | some dt =>
          if (dt.hour < 9 ∨ 18 ≤ dt.hour) ∧ isErrorLevel r = true then
            some { type := "time_anomaly"
                   severity := "low"
                   timestamp := some ts
                   details := .timeAnomaly dt.hour }
          else none
        | none => none
    | none => none

/-- The prefix-stripping of `_detect_unusual_patterns`: remove a leading
timestamp-shaped prefix (`^\d{4}-\d{2}-\d{2}[T\s]\d{2}:\d{2}:\d{2}\s*`),
then a leading error-level keyword (`^(ERROR|CRITICAL|FATAL)\s*`,
case-insensitive). -/
def stripTsLevel (msg : String) : String :=
  let l1 :=
    match genericTsMatch msg with
    | some t => (msg.data.drop t.length).dropWhile pyIsSpace
    | none => msg.data
  match ["ERROR", "CRITICAL", "FATAL"].findSome? fun kw =>
      if (l1.take kw.length).map Char.toUpper = kw.data then some kw.length
      else none with
  | some k => ⟨(l1.drop k).dropWhile pyIsSpace⟩
  | none => ⟨l1⟩

/-- The cleaned error-message sequence collected by
`_detect_unusual_patterns`: for each error-level record, the stripped
cleaned message when non-blank. -/
def errorMessages (rs : List LogRecord) : List String :=
  rs.filterMap fun r =>
    if isErrorLevel r then
      let c := pyStrip (stripTsLevel (r.message.getD ""))
      if c = "" then none else some c
    else none

/-- `AnomalyDetector._detect_unusual_patterns`: with at least three
cleaned error messages, flag each of the five most frequent distinct
messages whose count is at least 3 and exceeds 30 % of all error
messages. -/
def _detect_unusual_patterns (rs : List LogRecord) : List Anomaly :=
  let msgs := errorMessages rs
  let total := msgs.length
  if 3 ≤ total then
    ((isortBy (fun a b => b.2 ≤ a.2) (tallyBy (· == ·) msgs)).take 5).filterMap
      fun mc =>
        if 3 ≤ mc.2 ∧ (total : ℚ) * (3 / 10) < (mc.2 : ℚ) then
          some { type := "unusual_pattern"
                 severity := "medium"
                 timestamp := none
                 details := .unusualPattern mc.1 mc.2 ((mc.2 : ℚ) / (total : ℚ)) }
        else none
  else []

/-- The grouping key of `_detect_ip_anomalies`: apache-tagged records
with a truthy `ip_address`. -/
def recApacheIp (r : LogRecord) : Option String :=
  if r.format = "apache" then
    match r.ip_address with
    | some ip => if ip = "" then none else some ip
    | none => none
  else none

/-- The IPs in first-occurrence order. -/
def ipKeys (rs : List LogRecord) : List String :=
  dedupBy (· == ·) (rs.filterMap recApacheIp)

/-- `len(ip_activity[ip])`. -/
def ipCount (rs : List LogRecord) (ip : String) : Nat :=
  rs.countP fun r => recApacheIp r == some ip

/-- The error count of one IP's records
(`status_code ≥ 400`, `dict.get` default 0). -/
def ipErrCount (rs : List LogRecord) (ip : String) : Nat :=
  rs.countP fun r =>
    (recApacheIp r == some ip) && decide (400 ≤ r.status_code.getD 0)

/-- `AnomalyDetector._detect_ip_anomalies`: an IP with more than 100
apache requests and an error rate above one half is flagged `high`. -/
def _detect_ip_anomalies (rs : List LogRecord) : List Anomaly :=
  (ipKeys rs).filterMap fun ip =>
    let n := ipCount rs ip
    if 100 < n then
      let e := ipErrCount rs ip
      if (1 : ℚ) / 2 < (e : ℚ) / (n : ℚ) then
        some { type := "ip_anomaly"
               severity := "high"
               timestamp := none
               details := .ipAnomaly ip n ((e : ℚ) / (n : ℚ)) e }
      else none
    else none

/-- The grouping key of `_detect_status_anomalies`: apache-tagged records
with a truthy (non-zero) `status_code`. -/
def recApacheStatus (r : LogRecord) : Option Nat :=
  if r.format = "apache" then
    match r.status_code with
    | some s => if s = 0 then none else some s
    | none => none
  else none

/-- The distinct status codes in first-occurrence order. -/
def statusKeys (rs : List LogRecord) : List Nat :=
  dedupBy (· == ·) (rs.filterMap recApacheStatus)

/-- `status_counts[s]`. -/
def statusCount (rs : List LogRecord) (s : Nat) : Nat :=
  rs.countP fun r => recApacheStatus r == some s

/-- `total_requests = sum(status_counts.values())`. -/
def statusTotal (rs : List LogRecord) : Nat :=
  (rs.filterMap recApacheStatus).length

/-- `AnomalyDetector._detect_status_anomalies`: a status of at least 400
held by strictly more than 10 % of the counted apache requests is
flagged, `medium` below 500 and `high` from 500 up.  The source's
`if total_requests > 0` guard is subsumed: with no counted request there
is no status key to iterate. -/
def _detect_status_anomalies (rs : List LogRecord) : List Anomaly :=
  let total := statusTotal rs
  (statusKeys rs).filterMap fun s =>
    let c := statusCount rs s
    if 400 ≤ s ∧ (1 : ℚ) / 10 < (c : ℚ) / (total : ℚ) then
      some { type := "status_anomaly"
             severity := if s < 500 then "medium" else "high"
             timestamp := none
             details := .statusAnomaly s c ((c : ℚ) / (total : ℚ)) total }
    else none

/-- `AnomalyDetector.detect_anomalies`: empty input short-circuits to the
empty sequence; otherwise the six passes run independently and their
findings are concatenated in source order. -/
def detect_anomalies (rs : List LogRecord) : List Anomaly :=
  if rs.isEmpty then []
  else
    _detect_error_spikes rs ++ _detect_unusual_patterns rs ++
      _detect_frequency_anomalies rs ++ _detect_time_anomalies rs ++
      _detect_ip_anomalies rs ++ _detect_status_anomalies rs

/-! ### Claim-facing constants and projections -/

/-- The enumerated level set of the data model. -/
def levelSet : List String :=
  ["DEBUG", "INFO", "WARNING", "WARN", "ERROR", "CRITICAL", "FATAL"]

/-- The five format tags. -/
def formatTags : List String :=
  ["apache", "apache_error", "syslog", "json", "generic"]

/-- The status code carried by a status-anomaly finding. -/
def Anomaly.statusCodeOf (a : Anomaly) : Option Nat :=
  match a.details with
  | .statusAnomaly s _ _ _ => some s
  | _ => none

/-- The IP address carried by an ip-anomaly finding. -/
def Anomaly.ipOf (a : Anomaly) : Option String :=
  match a.details with
  | .ipAnomaly ip _ _ _ => some ip
  | _ => none

/-- A minimal generic-format record with the given timestamp and level. -/
def mkGenRec (ts lvl : String) : LogRecord :=
  { line_number := 1, timestamp := some ts, level := some lvl,
    message := some "disk full", raw_line := "raw", format := "generic" }

/-- Scenario D input: ten hourly buckets, hours 00 to 08 each holding one
non-error record (0 % error rate) and hour 09 holding nine errors and one
non-error (90 % error rate). -/
def scenarioD : List LogRecord :=
  ((List.range 9).map fun h =>
    mkGenRec ("2024-01-15T0" ++ toString h ++ ":00:00") "INFO") ++
  (List.replicate 9 (mkGenRec "2024-01-15T09:00:00" "ERROR") ++
    [mkGenRec "2024-01-15T09:00:00" "INFO"])

/-- A minimal apache-format record from one client IP with a status. -/
def mkApacheRec (ip : String) (st : Nat) : LogRecord :=
  { line_number := 1, ip_address := some ip, status_code := some st,
    raw_line := "raw", format := "apache" }

/-- Scenario E input: 150 apache records from `10.0.0.1`, 80 of them with
status 500 and 70 with status 200. -/
def scenarioE : List LogRecord :=
  List.replicate 80 (mkApacheRec "10.0.0.1" 500) ++
    List.replicate 70 (mkApacheRec "10.0.0.1" 200)

/-- Ten apache records with one 404 among nine 200s: status 404 holds
exactly 10 % of the counted requests. -/
def statusTenPct : List LogRecord :=
  mkApacheRec "1.2.3.4" 404 :: List.replicate 9 (mkApacheRec "1.2.3.4" 200)

/-- Nine apache records with one 404 among eight 200s: status 404 holds
one ninth (just above 10 %) of the counted requests. -/
def statusOverTenPct : List LogRecord :=
  mkApacheRec "1.2.3.4" 404 :: List.replicate 8 (mkApacheRec "1.2.3.4" 200)

/-- The Scenario A access-log line. -/
def scenarioALine : String :=
  "192.168.1.100 - - [15/Jan/2024:10:30:00 +0000] \"GET /api/users HTTP/1.1\" 200 1234"

/-- The hour bucket 2024-01-15 09:00, used as a concrete key. -/
def hourKeyJan15at9 : PyDateTime :=
  { year := 2024, month := 1, day := 15, hour := 9 }

/-! ### Helper lemmas -/

theorem tryLayouts_of_all_none (s : String) :
    ∀ fs : List (String → Option PyDateTime),
      (∀ f ∈ fs, f s = none) → tryLayouts fs s = none := by
  intro fs
  induction fs with
  | nil => intro _; rfl
  | cons f fs ih =>
    intro h
    have hf : f s = none := h f (List.mem_cons_self f fs)
    simp [tryLayouts, hf, ih fun g hg => h g (List.mem_cons_of_mem f hg)]

theorem tryLayouts_first (s : String) (f : String → Option PyDateTime)
    (dt : PyDateTime) :
    ∀ fs1 fs2, (∀ g ∈ fs1, g s = none) → f s = some dt →
      tryLayouts (fs1 ++ f :: fs2) s = some dt := by
  intro fs1
  induction fs1 with
  | nil => intro fs2 _ hf; simp [tryLayouts, hf]
  | cons g gs ih =>
    intro fs2 h hf
    have hg : g s = none := h g (List.mem_cons_self g gs)
    simp only [List.cons_append, tryLayouts, hg]
    exact ih fs2 (fun g2 hg2 => h g2 (List.mem_cons_of_mem g hg2)) hf

theorem tryLayoutsYearless_of_all_none (y : Nat) (s : String) :
    ∀ fs : List (String → Option PyDateTime),
      (∀ f ∈ fs, f s = none) → tryLayoutsYearless y fs s = none := by
  intro fs
  induction fs with
  | nil => intro _; rfl
  | cons f fs ih =>
    intro h
    have hf : f s = none := h f (List.mem_cons_self f fs)
    simp [tryLayoutsYearless, hf,
      ih fun g hg => h g (List.mem_cons_of_mem f hg)]

theorem tryLayoutsYearless_first (y : Nat) (s : String)
    (f : String → Option PyDateTime) (d dt : PyDateTime) :
    ∀ fs1 fs2, (∀ g ∈ fs1, (g s).bind (replaceYear y) = none) →
      f s = some d → replaceYear y d = some dt →
      tryLayoutsYearless y (fs1 ++ f :: fs2) s = some dt := by
  intro fs1
  induction fs1 with
  | nil => intro fs2 _ hf hr; simp [tryLayoutsYearless, hf, hr]
  | cons g gs ih =>
    intro fs2 h hf hr
    have hg : (g s).bind (replaceYear y) = none :=
      h g (List.mem_cons_self g gs)
    simp only [List.cons_append, tryLayoutsYearless, hg]
    exact ih fs2 (fun g2 hg2 => h g2 (List.mem_cons_of_mem g hg2)) hf hr

set_option maxRecDepth 100000

set_option maxHeartbeats 4000000

/-! ### Claim C1 -/

/-- C1 (counterexample): on the Scenario D input (nine hourly buckets at a
0 % error rate and one at 90 %), the error-spike detector emits exactly
one finding, but its severity is not `high`: the rule itself decides
`medium`, since `0.9 < mean + 3·stdev = 0.09 + 3·√0.081 ≈ 0.944`. -/
theorem C1_scenarioD_spike_not_high :
    ((detect_anomalies scenarioD).filter fun a => a.type == "error_spike").length = 1 ∧
    ∀ a ∈ (detect_anomalies scenarioD).filter fun a => a.type == "error_spike",
      a.severity ≠ "high" := by
  with_unfolding_all decide

/-- C1 (amended): on the Scenario D input, `detect_anomalies` returns
exactly one error-spike finding, for the 90 % hour, with severity
`medium` (flagged because `|0.9 - 0.09| > 2·stdev`, but below the
`mean + 3·stdev` bar for `high`). -/
theorem C1_scenarioD_one_medium_spike :
    (detect_anomalies scenarioD).filter (fun a => a.type == "error_spike") =
      [{ type := "error_spike", severity := "medium",
         timestamp := some "2024-01-15T09:00:00",
         details := .errorSpike (9 / 10) (9 / 100) }] := by
  with_unfolding_all decide

/-! ### Claim C3 -/

/-- C3 (code divergence): `parse_line` never returns absent — on an empty
or whitespace-only line every classifier fails and the generic extractor
still produces a record, contradicting the contract (and the repository's
own tests `test_parse_empty_line` / `test_parse_whitespace_line`, which
assert `parse_line('') is None`). -/
theorem C3_blank_line_yields_generic_record :
    (∃ r, parse_line 2024 "" 1 = some r ∧ r.format = "generic") ∧
    (∃ r, parse_line 2024 "   \n\t  " 1 = some r ∧ r.format = "generic") :=
  ⟨⟨_, rfl, rfl⟩, ⟨_, rfl, rfl⟩⟩

/-! ### Claim C8 -/

/-- C8: `detect_anomalies` returns the empty sequence for empty input and
otherwise concatenates the outputs of the six detectors in the fixed
source order: error-spike, unusual-pattern, frequency-anomaly,
time-anomaly, ip-anomaly, status-anomaly. -/
theorem C8_detect_anomalies_dispatch :
    detect_anomalies ([] : List LogRecord) = [] ∧
    ∀ rs : List LogRecord, rs ≠ [] →
      detect_anomalies rs =
        _detect_error_spikes rs ++ _detect_unusual_patterns rs ++
          _detect_frequency_anomalies rs ++ _detect_time_anomalies rs ++
          _detect_ip_anomalies rs ++ _detect_status_anomalies rs := by
  refine ⟨rfl, fun rs h => ?_⟩
  cases rs with
  | nil => exact absurd rfl h
  | cons x xs => rfl

/-- Witness for C8 at a one-record input. -/
theorem C8_detect_anomalies_dispatch_witness :
    detect_anomalies [mkGenRec "2024-01-15T09:00:00" "INFO"] =
      _detect_error_spikes [mkGenRec "2024-01-15T09:00:00" "INFO"] ++
        _detect_unusual_patterns [mkGenRec "2024-01-15T09:00:00" "INFO"] ++
        _detect_frequency_anomalies [mkGenRec "2024-01-15T09:00:00" "INFO"] ++
        _detect_time_anomalies [mkGenRec "2024-01-15T09:00:00" "INFO"] ++
        _detect_ip_anomalies [mkGenRec "2024-01-15T09:00:00" "INFO"] ++
        _detect_status_anomalies [mkGenRec "2024-01-15T09:00:00" "INFO"] :=
  C8_detect_anomalies_dispatch.2 [mkGenRec "2024-01-15T09:00:00" "INFO"]
    (List.cons_ne_nil _ _)

/-! ### Membership and counting lemmas for the grouping machinery -/

theorem mem_dedupByAux {α : Type} [DecidableEq α] (a : α) :
    ∀ (l seen : List α),
      a ∈ dedupByAux (fun x y => x == y) seen l ↔ (a ∈ l ∧ a ∉ seen) := by
  intro l
  induction l with
  | nil => intro seen; simp [dedupByAux]
  | cons x xs ih =>
    intro seen
    rw [dedupByAux]
    by_cases hseen : seen.any fun y => y == x
    · have hx : x ∈ seen := by
        obtain ⟨y, hy, hyx⟩ := List.any_eq_true.mp hseen
        exact (eq_of_beq hyx) ▸ hy
      simp only [hseen, if_pos, ih, List.mem_cons]
      constructor
      · exact fun ⟨h1, h2⟩ => ⟨Or.inr h1, h2⟩
      · rintro ⟨h1 | h1, h2⟩
        · exact absurd (h1 ▸ hx) h2
        · exact ⟨h1, h2⟩
    · simp only [hseen, if_neg, Bool.not_eq_true, List.mem_cons, ih]
      by_cases hax : a = x
      · subst hax
        have : a ∉ seen := fun hmem =>
          hseen (List.any_eq_true.mpr ⟨a, hmem, by simp⟩)
        simp [this]
      · simp [hax]

theorem mem_dedupBy {α : Type} [DecidableEq α] (a : α) (l : List α) :
    a ∈ dedupBy (fun x y => x == y) l ↔ a ∈ l := by
  rw [dedupBy, mem_dedupByAux]
  simp

theorem half_lt_div_iff (e n : Nat) (hn : 0 < n) :
    ((1 : ℚ) / 2 < (e : ℚ) / (n : ℚ)) ↔ n < 2 * e := by
  have hn2 : (0 : ℚ) < (n : ℚ) := by exact_mod_cast hn
  rw [div_lt_div_iff₀ (by norm_num) hn2, one_mul, mul_comm]
  exact_mod_cast Iff.rfl

theorem tenth_lt_div_iff (c t : Nat) (ht : 0 < t) :
    ((1 : ℚ) / 10 < (c : ℚ) / (t : ℚ)) ↔ t < 10 * c := by
  have ht2 : (0 : ℚ) < (t : ℚ) := by exact_mod_cast ht
  rw [div_lt_div_iff₀ (by norm_num) ht2, one_mul, mul_comm]
  exact_mod_cast Iff.rfl

theorem statusCount_le_statusTotal (rs : List LogRecord) (s : Nat) :
    statusCount rs s ≤ statusTotal rs := by
  induction rs with
  | nil => exact Nat.le_refl 0
  | cons r rs ih =>
    simp only [statusCount, statusTotal, List.countP_cons, List.filterMap_cons]
      at ih ⊢
    cases h : recApacheStatus r with
    | none => simpa [h] using ih
    | some v =>
      by_cases hv : v = s
      · simp only [h, hv, List.length_cons]
        simpa using Nat.succ_le_succ ih
      · have : ((some v == some s) : Bool) = false := by simp [hv]
        simp only [h, this, List.length_cons, Bool.false_eq_true, if_neg,
          Nat.add_zero, not_false_eq_true]
        exact Nat.le_succ_of_le ih

theorem statusCount_pos_iff (rs : List LogRecord) (s : Nat) :
    0 < statusCount rs s ↔ s ∈ rs.filterMap recApacheStatus := by
  rw [statusCount, List.countP_pos_iff, List.mem_filterMap]
  constructor
  · rintro ⟨r, hr, hp⟩
    exact ⟨r, hr, eq_of_beq hp⟩
  · rintro ⟨r, hr, hp⟩
    exact ⟨r, hr, by simp [hp]⟩

theorem ipCount_pos_iff (rs : List LogRecord) (ip : String) :
    0 < ipCount rs ip ↔ ip ∈ rs.filterMap recApacheIp := by
  rw [ipCount, List.countP_pos_iff, List.mem_filterMap]
  constructor
  · rintro ⟨r, hr, hp⟩
    exact ⟨r, hr, eq_of_beq hp⟩
  · rintro ⟨r, hr, hp⟩
    exact ⟨r, hr, by simp [hp]⟩

/-! ### Claims C9 and C5 -/

/-- C9: the ip-anomaly detector flags an IP (with a finding of type
`ip_anomaly` and severity `high`) exactly when its apache request count
exceeds 100 and its error rate (`status_code ≥ 400` fraction) exceeds one
half — stated as `count < 2 · errors` by cross-multiplication; and on the
Scenario E input (150 requests from `10.0.0.1`, 80 of them status 500)
it emits exactly the `high` finding with `error_rate = 80/150 = 8/15`. -/
theorem C9_ip_anomalies :
    (∀ (rs : List LogRecord) (ip : String),
      (∃ a ∈ _detect_ip_anomalies rs, a.ipOf = some ip) ↔
        (100 < ipCount rs ip ∧ ipCount rs ip < 2 * ipErrCount rs ip)) ∧
    (∀ (rs : List LogRecord), ∀ a ∈ _detect_ip_anomalies rs,
      a.type = "ip_anomaly" ∧ a.severity = "high") ∧
    _detect_ip_anomalies scenarioE =
      [{ type := "ip_anomaly", severity := "high", timestamp := none,
         details := .ipAnomaly "10.0.0.1" 150 (8 / 15) 80 }] := by
  refine ⟨?_, ?_, by with_unfolding_all decide⟩
  · intro rs ip
    constructor
    · rintro ⟨a, ha, hip⟩
      simp only [_detect_ip_anomalies] at ha
      obtain ⟨k, hk, hfk⟩ := List.mem_filterMap.mp ha
      by_cases h1 : 100 < ipCount rs k
      · rw [if_pos h1] at hfk
        by_cases h2 : (1 : ℚ) / 2 < (ipErrCount rs k : ℚ) / (ipCount rs k : ℚ)
        · rw [if_pos h2] at hfk
          obtain rfl := Option.some.inj hfk
          simp only [Anomaly.ipOf] at hip
          obtain rfl := Option.some.inj hip
          have hpos : 0 < ipCount rs k := by omega
          exact ⟨h1, (half_lt_div_iff _ _ hpos).mp h2⟩
        · rw [if_neg h2] at hfk
          simp at hfk
      · rw [if_neg h1] at hfk
        simp at hfk
    · rintro ⟨h1, h2⟩
      have hpos : 0 < ipCount rs ip := by omega
      have hkeys : ip ∈ ipKeys rs :=
        (mem_dedupBy ip _).mpr ((ipCount_pos_iff rs ip).mp hpos)
      have hrate : (1 : ℚ) / 2 < (ipErrCount rs ip : ℚ) / (ipCount rs ip : ℚ) :=
        (half_lt_div_iff _ _ hpos).mpr h2
      have hbody :
          (if 100 < ipCount rs ip then
            (if (1 : ℚ) / 2 < (ipErrCount rs ip : ℚ) / (ipCount rs ip : ℚ) then
              some ({ type := "ip_anomaly", severity := "high",
                      timestamp := none,
                      details := .ipAnomaly ip (ipCount rs ip)
                        ((ipErrCount rs ip : ℚ) / (ipCount rs ip : ℚ))
                        (ipErrCount rs ip) } : Anomaly)
            else none)
          else none) =
            some ({ type := "ip_anomaly", severity := "high",
                    timestamp := none,
                    details := .ipAnomaly ip (ipCount rs ip)
                      ((ipErrCount rs ip : ℚ) / (ipCount rs ip : ℚ))
                      (ipErrCount rs ip) } : Anomaly) := by
        rw [if_pos h1, if_pos hrate]
      exact ⟨_, List.mem_filterMap.mpr ⟨ip, hkeys, hbody⟩, rfl⟩
  · intro rs a ha
    simp only [_detect_ip_anomalies] at ha
    obtain ⟨k, hk, hfk⟩ := List.mem_filterMap.mp ha
    by_cases h1 : 100 < ipCount rs k
    · rw [if_pos h1] at hfk
      by_cases h2 : (1 : ℚ) / 2 < (ipErrCount rs k : ℚ) / (ipCount rs k : ℚ)
      · rw [if_pos h2] at hfk
        obtain rfl := Option.some.inj hfk
        exact ⟨rfl, rfl⟩
      · rw [if_neg h2] at hfk
        simp at hfk
    · rw [if_neg h1] at hfk
      simp at hfk

/-- Witness for C9: the biconditional instantiated on Scenario E. -/
theorem C9_ip_anomalies_witness :
    ∃ a ∈ _detect_ip_anomalies scenarioE, a.ipOf = some "10.0.0.1" :=
  (C9_ip_anomalies.1 scenarioE "10.0.0.1").mpr (by with_unfolding_all decide)

/-- C5 (amended): the status-code detector flags a status exactly when it
is at least 400 and its count is *strictly* more than 10 % of the counted
apache requests (`total < 10 · count`); the source compares with
`percentage > 0.1`, exclusive at exactly 10 %.  Severity is `medium`
below 500 and `high` from 500 up. -/
theorem C5_status_anomaly_iff :
    (∀ (rs : List LogRecord) (s : Nat),
      (∃ a ∈ _detect_status_anomalies rs, a.statusCodeOf = some s) ↔
        (400 ≤ s ∧ statusTotal rs < 10 * statusCount rs s)) ∧
    (∀ (rs : List LogRecord), ∀ a ∈ _detect_status_anomalies rs, ∀ s,
      a.statusCodeOf = some s →
        a.type = "status_anomaly" ∧
        a.severity = if s < 500 then "medium" else "high") := by
  constructor
  · intro rs s
    constructor
    · rintro ⟨a, ha, hs⟩
      simp only [_detect_status_anomalies] at ha
      obtain ⟨k, hk, hfk⟩ := List.mem_filterMap.mp ha
      by_cases h1 : 400 ≤ k ∧
          (1 : ℚ) / 10 < (statusCount rs k : ℚ) / (statusTotal rs : ℚ)
      · rw [if_pos h1] at hfk
        obtain rfl := Option.some.inj hfk
        simp only [Anomaly.statusCodeOf] at hs
        obtain rfl := Option.some.inj hs
        have hcnt : 0 < statusCount rs k :=
          (statusCount_pos_iff rs k).mpr ((mem_dedupBy k _).mp hk)
        have htot : 0 < statusTotal rs :=
          Nat.lt_of_lt_of_le hcnt (statusCount_le_statusTotal rs k)
        exact ⟨h1.1, (tenth_lt_div_iff _ _ htot).mp h1.2⟩
      · rw [if_neg h1] at hfk
        simp at hfk
    · rintro ⟨h4, h10⟩
      have hcnt : 0 < statusCount rs s := by omega
      have htot : 0 < statusTotal rs :=
        Nat.lt_of_lt_of_le hcnt (statusCount_le_statusTotal rs s)
      have hkeys : s ∈ statusKeys rs :=
        (mem_dedupBy s _).mpr ((statusCount_pos_iff rs s).mp hcnt)
      have hpct : (1 : ℚ) / 10 < (statusCount rs s : ℚ) / (statusTotal rs : ℚ) :=
        (tenth_lt_div_iff _ _ htot).mpr h10
      have hbody :
          (if 400 ≤ s ∧
              (1 : ℚ) / 10 < (statusCount rs s : ℚ) / (statusTotal rs : ℚ) then
            some ({ type := "status_anomaly",
                    severity := if s < 500 then "medium" else "high",
                    timestamp := none,
                    details := .statusAnomaly s (statusCount rs s)
                      ((statusCount rs s : ℚ) / (statusTotal rs : ℚ))
                      (statusTotal rs) } : Anomaly)
          else none) =
            some ({ type := "status_anomaly",
                    severity := if s < 500 then "medium" else "high",
                    timestamp := none,
                    details := .statusAnomaly s (statusCount rs s)
                      ((statusCount rs s : ℚ) / (statusTotal rs : ℚ))
                      (statusTotal rs) } : Anomaly) := by
        rw [if_pos ⟨h4, hpct⟩]
      exact ⟨_, List.mem_filterMap.mpr ⟨s, hkeys, hbody⟩, rfl⟩
  · intro rs a ha s hs
    simp only [_detect_status_anomalies] at ha
    obtain ⟨k, hk, hfk⟩ := List.mem_filterMap.mp ha
    by_cases h1 : 400 ≤ k ∧
        (1 : ℚ) / 10 < (statusCount rs k : ℚ) / (statusTotal rs : ℚ)
    · rw [if_pos h1] at hfk
      obtain rfl := Option.some.inj hfk
      simp only [Anomaly.statusCodeOf] at hs
      obtain rfl := Option.some.inj hs
      exact ⟨rfl, rfl⟩
    · rw [if_neg h1] at hfk
      simp at hfk

/-- Witness for C5: with one 404 among nine requests (one ninth, just
above 10 %), status 404 is flagged. -/
theorem C5_status_anomaly_iff_witness :
    ∃ a ∈ _detect_status_anomalies statusOverTenPct, a.statusCodeOf = some 404 :=
  (C5_status_anomaly_iff.1 statusOverTenPct 404).mpr (by with_unfolding_all decide)

/-- C5 (counterexample): with one 404 among ten apache requests the 404
rate is exactly 10 %, which satisfies the claim's inclusive `≥ 10 %`
condition, yet the detector emits no finding — the source's comparison is
strict. -/
theorem C5_exact_ten_percent_not_flagged :
    ¬ ((∃ a ∈ _detect_status_anomalies statusTenPct, a.statusCodeOf = some 404) ↔
        (400 ≤ 404 ∧
          (1 : ℚ) / 10 ≤ (statusCount statusTenPct 404 : ℚ) /
            (statusTotal statusTenPct : ℚ))) := by
  with_unfolding_all decide

/-! ### Parser shape lemmas and claims C2, C4, C7, C10, C6 -/

theorem findSomeLevel_sound :
    ∀ (alts : List String) (l : List Char) (t : String),
      (alts.findSome? fun kw =>
        if (l.take kw.length).map Char.toUpper = kw.data then
          some (String.mk (l.take kw.length))
        else none) = some t →
      pyUpper t ∈ alts := by
  intro alts
  induction alts with
  | nil => intro l t h; simp [List.findSome?] at h
  | cons kw alts ih =>
    intro l t h
    rw [List.findSome?_cons] at h
    by_cases hc : (l.take kw.length).map Char.toUpper = kw.data
    · rw [if_pos hc] at h
      obtain rfl := Option.some.inj h
      have hk : pyUpper (String.mk (l.take kw.length)) = kw := by
        simp only [pyUpper, hc]
      rw [hk]
      exact List.mem_cons_self _ _
    · rw [if_neg hc] at h
      exact List.mem_cons_of_mem _ (ih l t h)

theorem searchLevel_sound :
    ∀ (l : List Char) (t : String), searchLevel l = some t →
      pyUpper t ∈ levelSet
  | [], t, h => by simp [searchLevel] at h
  | c :: cs, t, h => by
    rw [searchLevel] at h
    cases hm : matchLevelAt (c :: cs) with
    | some m =>
      rw [hm] at h
      have h1 : pyUpper m ∈ levelAlternatives :=
        findSomeLevel_sound levelAlternatives (c :: cs) m hm
      have h2 : ∀ x ∈ levelAlternatives, x ∈ levelSet := by decide
      obtain rfl := Option.some.inj h
      exact h2 _ h1
    | none =>
      rw [hm] at h
      exact searchLevel_sound cs t h

theorem getD_searchLevel_mem (l : List Char) :
    ((searchLevel l).map pyUpper).getD "INFO" ∈ levelSet := by
  cases h : searchLevel l with
  | none => decide
  | some t => simpa using searchLevel_sound l t h

/-- The shape of a generic-extractor record. -/
theorem generic_shape (line : String) (n : Nat) :
    ∃ r, _parse_generic_line line n = some r ∧ r.line_number = n ∧
      r.format ∈ formatTags ∧
      (r.format = "apache" → r.level = none ∧ r.message = none) ∧
      (r.format ≠ "apache" → r.level.isSome ∧ r.message.isSome) ∧
      ((r.format = "syslog" ∨ r.format = "generic") →
        ∃ lv, r.level = some lv ∧ lv ∈ levelSet) := by
  refine ⟨_, rfl, rfl, ?_, ?_, ?_, ?_⟩
  · show "generic" ∈ formatTags
    decide
  · intro h
    exact absurd (show "generic" = "apache" from h) (by decide)
  · intro _
    exact ⟨rfl, rfl⟩
  · intro _
    exact ⟨_, rfl, getD_searchLevel_mem _⟩

/-- The shape of every record `parse_line` produces: always present, the
line number echoed, the format one of the five tags, `level` and
`message` present except in the apache format (which carries neither),
and the level drawn from the enumerated set in the syslog and generic
formats. -/
theorem parse_line_shape (y : Nat) (line : String) (n : Nat) :
    ∃ r, parse_line y line n = some r ∧ r.line_number = n ∧
      r.format ∈ formatTags ∧
      (r.format = "apache" → r.level = none ∧ r.message = none) ∧
      (r.format ≠ "apache" → r.level.isSome ∧ r.message.isSome) ∧
      ((r.format = "syslog" ∨ r.format = "generic") →
        ∃ lv, r.level = some lv ∧ lv ∈ levelSet) := by
  rw [parse_line]
  by_cases hj : jsonRe line
  · rw [if_pos hj, _parse_json_line]
    cases hload : jsonLoads line with
    | some v =>
      cases v with
      | obj d =>
        refine ⟨_, rfl, rfl, ?_, ?_, ?_, ?_⟩
        · show "json" ∈ formatTags
          decide
        · intro h
          exact absurd (show "json" = "apache" from h) (by decide)
        · intro _
          exact ⟨rfl, rfl⟩
        · intro h
          exact absurd h (by
            show ¬("json" = "syslog" ∨ "json" = "generic")
            decide)
      | str s => exact generic_shape line n
      | num lex => exact generic_shape line n
      | bool b => exact generic_shape line n
      | null => exact generic_shape line n
      | arr es => exact generic_shape line n
    | none => exact generic_shape line n
  · rw [if_neg hj]
    by_cases he : (apacheErrorMatch line).isSome
    · rw [if_pos he]
      obtain ⟨⟨ts, lvl, msg⟩, hv⟩ := Option.isSome_iff_exists.mp he
      rw [_parse_apache_error_line, hv]
      refine ⟨_, rfl, rfl, ?_, ?_, ?_, ?_⟩
      · show "apache_error" ∈ formatTags
        decide
      · intro h
        exact absurd (show "apache_error" = "apache" from h) (by decide)
      · intro _
        exact ⟨rfl, rfl⟩
      · intro h
        exact absurd h (by
          show ¬("apache_error" = "syslog" ∨ "apache_error" = "generic")
          decide)
    · rw [if_neg he]
      by_cases ha : (apacheMatch line).isSome
      · rw [if_pos ha]
        obtain ⟨⟨ip, ts, req, st, sz⟩, hv⟩ := Option.isSome_iff_exists.mp ha
        rw [_parse_apache_line, hv]
        refine ⟨_, rfl, rfl, ?_, ?_, ?_, ?_⟩
        · show "apache" ∈ formatTags
          decide
        · intro _
          exact ⟨rfl, rfl⟩
        · intro h
          exact absurd rfl h
        · intro h
          exact absurd h (by
            show ¬("apache" = "syslog" ∨ "apache" = "generic")
            decide)
      · rw [if_neg ha]
        by_cases hs : (syslogMatch line).isSome
        · rw [if_pos hs]
          obtain ⟨⟨ts, host, svc, msg⟩, hv⟩ := Option.isSome_iff_exists.mp hs
          rw [_parse_syslog_line, hv]
          refine ⟨_, rfl, rfl, ?_, ?_, ?_, ?_⟩
          · show "syslog" ∈ formatTags
            decide
          · intro h
            exact absurd (show "syslog" = "apache" from h) (by decide)
          · intro _
            exact ⟨rfl, rfl⟩
          · intro _
            exact ⟨_, rfl, getD_searchLevel_mem _⟩
        · rw [if_neg hs]
          exact generic_shape line n

/-- C2 (counterexample): the Scenario A apache line yields a record with
neither a `level` nor a `message` key, contradicting the claim that every
record — apache-tagged ones in particular — carries both. -/
theorem C2_apache_lacks_level_and_message :
    ∃ r, parse_line 2024 scenarioALine 1 = some r ∧ r.format = "apache" ∧
      r.level = none ∧ r.message = none :=
  ⟨_, rfl, rfl, rfl, rfl⟩

/-- C2 (amended): every record produced by `parse_line` carries `level`
and `message` except apache-tagged records, which carry neither; in the
syslog and generic formats the level is drawn from the enumerated set
(defaulting to INFO).  (In the json and apache_error formats the fields
are present but taken verbatim from the source line, not restricted to
the enumerated set.) -/
theorem C2_level_message_presence :
    ∀ (y : Nat) (line : String) (n : Nat) (r : LogRecord),
      parse_line y line n = some r →
        (r.format = "apache" → r.level = none ∧ r.message = none) ∧
        (r.format ≠ "apache" → r.level.isSome ∧ r.message.isSome) ∧
        ((r.format = "syslog" ∨ r.format = "generic") →
          ∃ lv, r.level = some lv ∧ lv ∈ levelSet) := by
  intro y line n r h
  obtain ⟨r2, h1, _, _, ha, hb, hc⟩ := parse_line_shape y line n
  rw [h] at h1
  obtain rfl := Option.some.inj h1
  exact ⟨ha, hb, hc⟩

/-- Witness for C2 on the Scenario B syslog line. -/
theorem C2_level_message_presence_witness :
    ∃ r, parse_line 2024 "Jan 15 10:30:00 server01 sshd: Failed password" 1 =
        some r ∧ (r.format ≠ "apache" → r.level.isSome ∧ r.message.isSome) :=
  ⟨_, rfl,
    (C2_level_message_presence 2024
      "Jan 15 10:30:00 server01 sshd: Failed password" 1 _ rfl).2.1⟩

/-- C4: for every line and line number, `parse_line` returns a record
whose `format` is one of the five tags and whose `line_number` echoes the
argument (stated under the claim's non-blank hypothesis; the code needs
no blankness assumption, compare C3). -/
theorem C4_nonblank_record_five_tags :
    ∀ (y : Nat) (line : String) (n : Nat), pyStrip line ≠ "" →
      ∃ r, parse_line y line n = some r ∧ r.line_number = n ∧
        r.format ∈ formatTags := by
  intro y line n _
  obtain ⟨r, h1, h2, h3, _⟩ := parse_line_shape y line n
  exact ⟨r, h1, h2, h3⟩

/-- Witness for C4 on the Scenario A apache line. -/
theorem C4_nonblank_record_five_tags_witness :
    pyStrip scenarioALine ≠ "" ∧
    ∃ r, parse_line 2024 scenarioALine 7 = some r ∧ r.line_number = 7 ∧
      r.format ∈ formatTags :=
  ⟨by decide, C4_nonblank_record_five_tags 2024 scenarioALine 7 (by decide)⟩

theorem parse_file_go_length (y M : Nat) :
    ∀ (lines : List String) (k p : Nat), p ≤ M →
      (parse_file_go y M lines k p).length =
        min (lines.countP fun l => decide (pyStrip l ≠ "")) (M - p) := by
  intro lines
  induction lines with
  | nil => intro k p hp; simp [parse_file_go]
  | cons line rest ih =>
    intro k p hp
    rw [parse_file_go]
    by_cases hM : M ≤ p
    · rw [if_pos hM]
      have h0 : M - p = 0 := Nat.sub_eq_zero_of_le hM
      simp [h0]
    · rw [if_neg hM]
      by_cases hb : pyStrip line = ""
      · rw [if_pos hb]
        rw [ih (k + 1) p hp]
        simp [List.countP_cons, hb]
      · rw [if_neg hb]
        obtain ⟨r, hr, _⟩ := parse_line_shape y (pyStrip line) k
        rw [hr]
        simp only [List.length_cons, List.countP_cons]
        rw [ih (k + 1) (p + 1) (by omega)]
        have h1 : (decide (pyStrip line ≠ "")) = true := by simp [hb]
        rw [h1]
        have h2 : M - p = (M - (p + 1)) + 1 := by omega
        simp [h2, min_add_add_right]

/-- C7: with `sampleRate = 1.0`, `parse_file` over a file of lines emits
exactly `min(N, maxLines)` records, where `N` counts the non-blank
(post-strip) lines; blank lines are skipped and do not count toward the
cap. -/
theorem C7_parse_file_cap (y : Nat) (lines : List String) (M : Nat) :
    (parse_file y lines M).length =
      min (lines.countP fun l => decide (pyStrip l ≠ "")) M := by
  rw [parse_file, parse_file_go_length y M lines 1 0 (Nat.zero_le M)]
  simp

/-- C10: apache records are invisible to the level-based detectors.  The
apache extractor emits no `level` key, and any record whose format is
`apache` and whose level is absent is read as level `''` by the
detectors, so it never increments an hourly error count, never
contributes an error message to the repeated-pattern detector, and never
produces a time-of-day finding — regardless of its `status_code`. -/
theorem C10_apache_never_error_level :
    (∀ (y : Nat) (line : String) (n : Nat) (r : LogRecord),
      _parse_apache_line y line n = some r →
        r.level = none ∧ r.format = "apache") ∧
    (∀ (r : LogRecord) (rs : List LogRecord) (k : PyDateTime),
      r.format = "apache" → r.level = none →
        hourlyErrors (r :: rs) k = hourlyErrors rs k ∧
        errorMessages (r :: rs) = errorMessages rs ∧
        _detect_time_anomalies (r :: rs) = _detect_time_anomalies rs) := by
  constructor
  · intro y line n r h
    rw [_parse_apache_line] at h
    cases hm : apacheMatch line with
    | none => rw [hm] at h; exact absurd h (by simp)
    | some g =>
      obtain ⟨ip, ts, req, st, sz⟩ := g
      rw [hm] at h
      obtain rfl := Option.some.inj h
      exact ⟨rfl, rfl⟩
  · intro r rs k _ hlevel
    have hlvl : isErrorLevel r = false := by
      rw [isErrorLevel, hlevel]
      decide
    refine ⟨?_, ?_, ?_⟩
    · simp [hourlyErrors, List.countP_cons, hlvl]
    · simp [errorMessages, List.filterMap_cons, hlvl]
    · simp only [_detect_time_anomalies, List.filterMap_cons]
      cases hts : r.timestamp with
      | none => simp [hts]
      | some ts =>
        by_cases h0 : ts = ""
        · simp [hts, h0]
        · cases hdt : detParseTs ts with
          | none => simp [hts, h0, hdt]
          | some dt => simp [hts, h0, hdt, hlvl]

/-- Witness for C10: the Scenario A line through the apache extractor,
and an apache record prepended to the Scenario E input. -/
theorem C10_apache_never_error_level_witness :
    (∃ r, _parse_apache_line 2024 scenarioALine 1 = some r ∧ r.level = none) ∧
    hourlyErrors (mkApacheRec "10.0.0.1" 500 :: scenarioE) hourKeyJan15at9 =
      hourlyErrors scenarioE hourKeyJan15at9 :=
  ⟨⟨_, rfl, (C10_apache_never_error_level.1 2024 scenarioALine 1 _ rfl).1⟩,
    (C10_apache_never_error_level.2 (mkApacheRec "10.0.0.1" 500) scenarioE
      hourKeyJan15at9 rfl rfl).1⟩

/-- C6: the timestamp normalizer is a total function; when none of the
eight layouts parses the input the original string is returned unchanged;
when a layout parses it, the result is the `isoformat` rendering of the
first successful parse, with the current calendar year substituted for
the year-less layouts; one concrete exemplar per layout group. -/
theorem C6_timestamp_normalizer (y : Nat) (s : String) :
    ((∀ f ∈ layoutsWithYear, f s = none) →
      (∀ f ∈ layoutsNoYear, f s = none) → parse_timestamp y s = s) ∧
    (∀ fs1 f fs2 dt, layoutsWithYear = fs1 ++ f :: fs2 →
      (∀ g ∈ fs1, g s = none) → f s = some dt →
      parse_timestamp y s = dt.isoformat) ∧
    ((∀ f ∈ layoutsWithYear, f s = none) →
      ∀ fs1 f fs2 d dt, layoutsNoYear = fs1 ++ f :: fs2 →
        (∀ g ∈ fs1, (g s).bind (replaceYear y) = none) →
        f s = some d → replaceYear y d = some dt →
        parse_timestamp y s = dt.isoformat) ∧
    parse_timestamp 2025 "15/Jan/2024:10:30:00 +0000" =
      "2024-01-15T10:30:00+00:00" ∧
    parse_timestamp 2025 "2024-01-15T10:30:00.123Z" =
      "2024-01-15T10:30:00.123000" ∧
    parse_timestamp 2025 "Jun  9 06:07:04" = "2025-06-09T06:07:04" ∧
    parse_timestamp y "not a timestamp" = "not a timestamp" := by
  refine ⟨?_, ?_, ?_, rfl, rfl, rfl, rfl⟩
  · intro h1 h2
    unfold parse_timestamp
    rw [tryLayouts_of_all_none s _ h1, tryLayoutsYearless_of_all_none y s _ h2]
  · intro fs1 f fs2 dt heq hnone hf
    unfold parse_timestamp
    rw [heq, tryLayouts_first s f dt fs1 fs2 hnone hf]
  · intro hall fs1 f fs2 d dt heq hnone hf hr
    unfold parse_timestamp
    rw [tryLayouts_of_all_none s _ hall, heq,
      tryLayoutsYearless_first y s f d dt fs1 fs2 hnone hf hr]

/-- Witness for C6: the no-match clause on garbage input and the
first-success clause on an Apache-error timestamp. -/
theorem C6_timestamp_normalizer_witness :
    parse_timestamp 2030 "total garbage" = "total garbage" ∧
    parse_timestamp 2030 "Thu Jun 09 06:07:04 2005" = "2005-06-09T06:07:04" :=
  ⟨(C6_timestamp_normalizer 2030 "total garbage").1 (by decide) (by decide),
   (C6_timestamp_normalizer 2030 "Thu Jun 09 06:07:04 2005").2.1
     [strptimeApacheTz, strptimeApache] strptimeApacheErr
     [strptimeIsoSpace, strptimeIsoT, strptimeIsoMicro] _ rfl (by decide) rfl⟩

end LogAnalyzer
